import Mathlib

/-!
Shallow embedding of the DB2ICE DDL converter (DB2 / Snowflake → Snowflake
Managed Iceberg) and proofs about it.

The embedding mirrors the Python modules `db2ice.parser`, `db2ice.mapper`,
`db2ice.assessor`, `db2ice.converter` and `db2ice.snowflake_converter`.
Strings are modelled as Lean `String` (lists of characters); Python regular
expressions are implemented as dedicated character-list matchers that
recognise the same language as the source pattern (each matcher's doc
comment cites the regex it embeds).  Python floats are modelled as `ℚ`
(all scores in the source are sums/products of decimal constants, so the
arithmetic is exact).  Python `None` becomes `Option`, and Python
truthiness on optional integers (`x if x else d` treats both `None` and
`0` as falsy) is modelled explicitly.
-/

set_option maxRecDepth 20000

namespace DB2Ice

/-! ## Character helpers -/

/-- The backslash character (code 92), written numerically. -/
def bslashCh : Char := Char.ofNat 92

/-- The single-quote character (code 39), written numerically. -/
def squoteCh : Char := Char.ofNat 39

/-- The backtick character (code 96), written numerically. -/
def btickCh : Char := Char.ofNat 96

/-- Python `str.strip()` whitespace set: space, \t, \n, \r, \x0b, \x0c
(these are also the characters matched by the regex class `\s`). -/
def isPyWs (c : Char) : Bool :=
  c.toNat = 32 || c.toNat = 9 || c.toNat = 10 || c.toNat = 13 ||
  c.toNat = 11 || c.toNat = 12

/-- ASCII decimal digit. -/
def isDigitCh (c : Char) : Bool := 48 ≤ c.toNat && c.toNat ≤ 57

/-- Regex class `\w` (ASCII fragment: letter, digit or underscore; the
source only feeds ASCII SQL text to these patterns). -/
def isWordCh (c : Char) : Bool :=
  (65 ≤ c.toNat && c.toNat ≤ 90) || (97 ≤ c.toNat && c.toNat ≤ 122) ||
  isDigitCh c || c = '_'

/-- Character class `["\w]` used for identifiers in the DB2 parser. -/
def isIdentCh (c : Char) : Bool := c = '"' || isWordCh c

/-- ASCII upper-casing of one character (Python `str.upper` on the ASCII
inputs used here). -/
def upCh (c : Char) : Char :=
  if 97 ≤ c.toNat && c.toNat ≤ 122 then Char.ofNat (c.toNat - 32) else c

/-- ASCII lower-casing of one character. -/
def lowCh (c : Char) : Char :=
  if 65 ≤ c.toNat && c.toNat ≤ 90 then Char.ofNat (c.toNat + 32) else c

/-- Python `s.upper()`. -/
def upStr (s : String) : String := ⟨s.data.map upCh⟩

/-- Python `s.lower()`. -/
def lowStr (s : String) : String := ⟨s.data.map lowCh⟩

/-- Drop the given character from both ends of a character list
(Python `str.strip('c')`). -/
def stripCharL (c : Char) (l : List Char) : List Char :=
  ((l.dropWhile (· = c)).reverse.dropWhile (· = c)).reverse

/-- Python `str.strip()` on a character list. -/
def pyStripL (l : List Char) : List Char :=
  ((l.dropWhile isPyWs).reverse.dropWhile isPyWs).reverse

/-- Python `str.strip()` on a string. -/
def pyStrip (s : String) : String := ⟨pyStripL s.data⟩

/-- Does `l` begin with `pat` (exact character match)? -/
def leadsWith : List Char → List Char → Bool
  | _, [] => true
  | [], _ :: _ => false
  | c :: cs, p :: ps => c = p && leadsWith cs ps

/-- Python `pat in s` substring test on character lists. -/
def hasSub (l pat : List Char) : Bool :=
  match l with
  | [] => pat.isEmpty
  | _ :: t => leadsWith l pat || hasSub t pat

/-- Python `pat in s` substring test on strings. -/
def strHas (s pat : String) : Bool := hasSub s.data pat.data

/-- Case-insensitive (ASCII) consumption of the literal `pat` from the
front of `l`; returns the rest on success.  Used for the regex literal
fragments compiled with `re.IGNORECASE`. -/
def ciLeads : List Char → List Char → Option (List Char)
  | l, [] => some l
  | [], _ :: _ => none
  | c :: cs, p :: ps => if upCh c = upCh p then ciLeads cs ps else none

/-- Regex `\s+`: at least one whitespace character, consumed greedily. -/
def wsPlus (l : List Char) : Option (List Char) :=
  match l with
  | [] => none
  | c :: cs => if isPyWs c then some (cs.dropWhile isPyWs) else none

/-- Regex `\s*`. -/
def wsStar (l : List Char) : List Char := l.dropWhile isPyWs

/-- Numeric value of a digit list (Python `int(...)` on the captured
digits). -/
def digitsVal (ds : List Char) : Nat :=
  ds.foldl (fun acc c => 10 * acc + (c.toNat - 48)) 0

/-- Regex `(\d+)`: a nonempty digit run, returning its value and the
rest. -/
def digits1 (l : List Char) : Option (Nat × List Char) :=
  let ds := l.takeWhile isDigitCh
  if ds.isEmpty then none else some (digitsVal ds, l.drop ds.length)

/-- A nonempty run of characters in class `p`, returning (run, rest). -/
def takeClass1 (p : Char → Bool) (l : List Char) : Option (List Char × List Char) :=
  let t := l.takeWhile p
  if t.isEmpty then none else some (t, l.drop t.length)

/-- Leftmost-match search: try the matcher at every suffix of `l`, in
order (this is how `re.search` scans). -/
def searchSuf {α : Type} (f : List Char → Option α) : List Char → Option α
  | [] => f []
  | c :: t =>
    match f (c :: t) with
    | some a => some a
    | none => searchSuf f t

/-- Render a natural number (Python f-string interpolation of an int). -/
def fmtNat (n : Nat) : String := toString n

/-- Render an optional int exactly as a Python f-string would
(`None` prints as the text `None`). -/
def fmtOptNat : Option Nat → String
  | some n => fmtNat n
  | none => "None"

/-- Python truthiness of an optional integer: `None` and `0` are falsy. -/
def optTruthy : Option Nat → Bool
  | none => false
  | some n => n ≠ 0

/-! ## `db2ice.mapper` — DataTypeMapper -/

/-- `ConversionStatus` enum from `mapper.py`. -/
inductive ConversionStatus where
  | direct
  | compatible
  | lossy
  | unsupported
deriving DecidableEq

/-- `TypeMapping` dataclass from `mapper.py`. -/
structure TypeMapping where
  source_type : String
  target_type : String
  status : ConversionStatus
  ewi_code : Option String := none
  ewi_message : Option String := none
  notes : Option String := none
deriving DecidableEq

/-- `DataTypeMapper.DIRECT_MAPPINGS`. -/
def DIRECT_MAPPINGS : List (String × String) :=
  [("SMALLINT", "SMALLINT"), ("INTEGER", "INTEGER"), ("INT", "INTEGER"),
   ("BIGINT", "BIGINT"), ("REAL", "FLOAT"), ("DOUBLE", "DOUBLE"),
   ("DATE", "DATE"), ("BOOLEAN", "BOOLEAN")]

/-- `MAX_VARCHAR_SIZE` (16 MB). -/
def MAX_VARCHAR_SIZE : Nat := 16 * 1024 * 1024

/-- `MAX_BINARY_SIZE` (8 MB). -/
def MAX_BINARY_SIZE : Nat := 8 * 1024 * 1024

/-- `MAX_LOB_SIZE` (128 MB). -/
def MAX_LOB_SIZE : Nat := 128 * 1024 * 1024

/-- `_map_char`: CHAR → VARCHAR.  `length if length else 1` uses Python
truthiness, as does the `if length` choosing the source rendering. -/
def map_char (length : Option Nat) : TypeMapping :=
  let target_length := if optTruthy length then length.getD 1 else 1
  { source_type := if optTruthy length then "CHAR(" ++ fmtOptNat length ++ ")" else "CHAR"
    target_type := "VARCHAR(" ++ fmtNat target_length ++ ")"
    status := ConversionStatus.compatible
    ewi_code := some "SSC-EWI-DB2ICE-0001"
    ewi_message := some "CHAR converted to VARCHAR - Iceberg does not support fixed-length CHAR"
    notes := some "Padding behavior may differ" }

/-- `_map_varchar`. -/
def map_varchar (length : Option Nat) : TypeMapping :=
  if optTruthy length ∧ length.getD 0 > MAX_VARCHAR_SIZE then
    { source_type := "VARCHAR(" ++ fmtOptNat length ++ ")"
      target_type := "VARCHAR"
      status := ConversionStatus.lossy
      ewi_code := some "SSC-EWI-DB2ICE-0008"
      ewi_message := some ("VARCHAR(" ++ fmtOptNat length ++ ") exceeds Iceberg limit, using VARCHAR without length") }
  else
    let t := if optTruthy length then "VARCHAR(" ++ fmtOptNat length ++ ")" else "VARCHAR"
    { source_type := t, target_type := t, status := ConversionStatus.direct }

/-- `_map_long_varchar`. -/
def map_long_varchar : TypeMapping :=
  { source_type := "LONG VARCHAR", target_type := "VARCHAR"
    status := ConversionStatus.compatible
    ewi_code := some "SSC-EWI-DB2ICE-0019"
    ewi_message := some "LONG VARCHAR converted to VARCHAR" }

/-- `_map_clob`. -/
def map_clob (length : Option Nat) : TypeMapping :=
  if optTruthy length ∧ length.getD 0 > MAX_LOB_SIZE then
    { source_type := "CLOB(" ++ fmtOptNat length ++ ")"
      target_type := "VARCHAR"
      status := ConversionStatus.lossy
      ewi_code := some "SSC-EWI-DB2ICE-0008"
      ewi_message := some ("CLOB size " ++ fmtOptNat length ++ " exceeds Snowflake 128MB limit - data truncation may occur") }
  else
    { source_type := if optTruthy length then "CLOB(" ++ fmtOptNat length ++ ")" else "CLOB"
      target_type := "VARCHAR"
      status := ConversionStatus.compatible
      notes := some "CLOB converted to VARCHAR" }

/-- `_map_decimal`: note `p = precision if precision else 5` and
`s = scale if scale else 0` (Python truthiness), and that the over-38
branch interpolates the raw Python values. -/
def map_decimal (precision scale : Option Nat) : TypeMapping :=
  let p := if optTruthy precision then precision.getD 5 else 5
  let s := if optTruthy scale then scale.getD 0 else 0
  if p > 38 then
    { source_type := "DECIMAL(" ++ fmtOptNat precision ++ "," ++ fmtOptNat scale ++ ")"
      target_type := "NUMBER(38," ++ fmtNat (min s 37) ++ ")"
      status := ConversionStatus.lossy
      ewi_code := some "SSC-EWI-DB2ICE-0002"
      ewi_message := some ("Precision " ++ fmtOptNat precision ++ " exceeds maximum 38, adjusted to 38") }
  else
    { source_type := "DECIMAL(" ++ fmtNat p ++ "," ++ fmtNat s ++ ")"
      target_type := "NUMBER(" ++ fmtNat p ++ "," ++ fmtNat s ++ ")"
      status := ConversionStatus.direct }

/-- `_map_float`. -/
def map_float (precision : Option Nat) : TypeMapping :=
  if optTruthy precision ∧ precision.getD 0 > 24 then
    { source_type := "FLOAT(" ++ fmtOptNat precision ++ ")"
      target_type := "DOUBLE", status := ConversionStatus.direct }
  else
    { source_type := if optTruthy precision then "FLOAT(" ++ fmtOptNat precision ++ ")" else "FLOAT"
      target_type := "FLOAT", status := ConversionStatus.direct }

/-- `_map_decfloat`. -/
def map_decfloat (precision : Option Nat) : TypeMapping :=
  { source_type := if optTruthy precision then "DECFLOAT(" ++ fmtOptNat precision ++ ")" else "DECFLOAT"
    target_type := "DOUBLE"
    status := ConversionStatus.lossy
    ewi_code := some "SSC-EWI-DB2ICE-0007"
    ewi_message := some "DECFLOAT converted to DOUBLE - decimal floating point precision may be lost" }

/-- `_map_time`: `source_precision = precision if precision else 0`. -/
def map_time (precision : Option Nat) : TypeMapping :=
  let source_precision := if optTruthy precision then precision.getD 0 else 0
  if source_precision ≠ 6 then
    { source_type := if optTruthy precision then "TIME(" ++ fmtNat source_precision ++ ")" else "TIME"
      target_type := "TIME(6)"
      status := ConversionStatus.compatible
      ewi_code := some "SSC-EWI-DB2ICE-0003"
      ewi_message := some "TIME precision adjusted to 6 (microseconds) for Iceberg compatibility" }
  else
    { source_type := "TIME(6)", target_type := "TIME(6)"
      status := ConversionStatus.direct }

/-- `_map_timestamp`: `source_precision = precision if precision else 6`
(so both `None` and `0` become 6 by Python truthiness). -/
def map_timestamp (precision : Option Nat) : TypeMapping :=
  let source_precision := if optTruthy precision then precision.getD 6 else 6
  if source_precision ≠ 6 then
    { source_type := "TIMESTAMP(" ++ fmtNat source_precision ++ ")"
      target_type := "TIMESTAMP_NTZ(6)"
      status := ConversionStatus.compatible
      ewi_code := some "SSC-EWI-DB2ICE-0004"
      ewi_message := some "TIMESTAMP precision adjusted to 6 (microseconds) for Iceberg compatibility" }
  else
    { source_type := "TIMESTAMP(" ++ fmtNat source_precision ++ ")"
      target_type := "TIMESTAMP_NTZ(6)"
      status := ConversionStatus.direct }

/-- `_map_binary`. -/
def map_binary (length : Option Nat) : TypeMapping :=
  if optTruthy length ∧ length.getD 0 > MAX_BINARY_SIZE then
    { source_type := "BINARY(" ++ fmtOptNat length ++ ")"
      target_type := "BINARY"
      status := ConversionStatus.lossy
      ewi_code := some "SSC-EWI-DB2ICE-0008"
      ewi_message := some ("BINARY(" ++ fmtOptNat length ++ ") exceeds Iceberg limit") }
  else
    let t := if optTruthy length then "BINARY(" ++ fmtOptNat length ++ ")" else "BINARY"
    { source_type := t, target_type := t, status := ConversionStatus.direct }

/-- `_map_varbinary`. -/
def map_varbinary (length : Option Nat) : TypeMapping :=
  if optTruthy length ∧ length.getD 0 > MAX_BINARY_SIZE then
    { source_type := "VARBINARY(" ++ fmtOptNat length ++ ")"
      target_type := "VARBINARY"
      status := ConversionStatus.lossy
      ewi_code := some "SSC-EWI-DB2ICE-0008"
      ewi_message := some ("VARBINARY(" ++ fmtOptNat length ++ ") exceeds Iceberg limit") }
  else
    let t := if optTruthy length then "VARBINARY(" ++ fmtOptNat length ++ ")" else "VARBINARY"
    { source_type := t, target_type := t, status := ConversionStatus.direct }

/-- `_map_blob`. -/
def map_blob (length : Option Nat) : TypeMapping :=
  if optTruthy length ∧ length.getD 0 > MAX_LOB_SIZE then
    { source_type := "BLOB(" ++ fmtOptNat length ++ ")"
      target_type := "BINARY"
      status := ConversionStatus.lossy
      ewi_code := some "SSC-EWI-DB2ICE-0008"
      ewi_message := some ("BLOB size " ++ fmtOptNat length ++ " exceeds Snowflake limit - data truncation may occur") }
  else
    { source_type := if optTruthy length then "BLOB(" ++ fmtOptNat length ++ ")" else "BLOB"
      target_type := "BINARY"
      status := ConversionStatus.compatible
      ewi_code := some "SSC-EWI-DB2ICE-0020"
      ewi_message := some "BLOB converted to BINARY" }

/-- `_map_graphic`: `target_length = (length * 4) if length else None`. -/
def map_graphic (length : Option Nat) : TypeMapping :=
  let target_length : Option Nat := if optTruthy length then some (length.getD 0 * 4) else none
  { source_type := if optTruthy length then "GRAPHIC(" ++ fmtOptNat length ++ ")" else "GRAPHIC"
    target_type := if optTruthy target_length then "VARCHAR(" ++ fmtOptNat target_length ++ ")" else "VARCHAR"
    status := ConversionStatus.compatible
    ewi_code := some "SSC-EWI-DB2ICE-0006"
    ewi_message := some "GRAPHIC (DBCS) converted to VARCHAR - verify character encoding" }

/-- `_map_vargraphic`. -/
def map_vargraphic (length : Option Nat) : TypeMapping :=
  let target_length : Option Nat := if optTruthy length then some (length.getD 0 * 4) else none
  { source_type := if optTruthy length then "VARGRAPHIC(" ++ fmtOptNat length ++ ")" else "VARGRAPHIC"
    target_type := if optTruthy target_length then "VARCHAR(" ++ fmtOptNat target_length ++ ")" else "VARCHAR"
    status := ConversionStatus.compatible
    ewi_code := some "SSC-EWI-DB2ICE-0006"
    ewi_message := some "VARGRAPHIC (DBCS) converted to VARCHAR - verify character encoding" }

/-- `_map_long_vargraphic`. -/
def map_long_vargraphic : TypeMapping :=
  { source_type := "LONG VARGRAPHIC", target_type := "VARCHAR"
    status := ConversionStatus.compatible
    ewi_code := some "SSC-EWI-DB2ICE-0006"
    ewi_message := some "LONG VARGRAPHIC converted to VARCHAR - verify character encoding" }

/-- `_map_dbclob`. -/
def map_dbclob (length : Option Nat) : TypeMapping :=
  if optTruthy length ∧ length.getD 0 > MAX_LOB_SIZE then
    { source_type := "DBCLOB(" ++ fmtOptNat length ++ ")"
      target_type := "VARCHAR"
      status := ConversionStatus.lossy
      ewi_code := some "SSC-EWI-DB2ICE-0008"
      ewi_message := some ("DBCLOB size " ++ fmtOptNat length ++ " exceeds Snowflake limit - data truncation may occur") }
  else
    { source_type := if optTruthy length then "DBCLOB(" ++ fmtOptNat length ++ ")" else "DBCLOB"
      target_type := "VARCHAR"
      status := ConversionStatus.compatible
      ewi_code := some "SSC-EWI-DB2ICE-0006"
      ewi_message := some "DBCLOB converted to VARCHAR - verify character encoding" }

/-- `_map_xml`. -/
def map_xml : TypeMapping :=
  { source_type := "XML", target_type := "VARCHAR"
    status := ConversionStatus.unsupported
    ewi_code := some "SSC-EWI-DB2ICE-0005"
    ewi_message := some "XML type not supported in Iceberg tables - manual conversion required" }

/-- `_map_rowid`. -/
def map_rowid : TypeMapping :=
  { source_type := "ROWID", target_type := "VARCHAR(40)"
    status := ConversionStatus.lossy
    ewi_code := some "SSC-EWI-DB2ICE-0009"
    ewi_message := some "ROWID converted to VARCHAR - values will not be preserved during migration" }

/-- `_map_for_bit_data`. -/
def map_for_bit_data (db2_type : String) (length : Option Nat) : TypeMapping :=
  let target_length := if optTruthy length then length.getD 1 else 1
  { source_type :=
      if optTruthy length then db2_type ++ "(" ++ fmtOptNat length ++ ") FOR BIT DATA"
      else db2_type ++ " FOR BIT DATA"
    target_type := "BINARY(" ++ fmtNat target_length ++ ")"
    status := ConversionStatus.compatible
    ewi_code := some "SSC-EWI-DB2ICE-0010"
    ewi_message := some "FOR BIT DATA converted to BINARY type" }

/-- `DataTypeMapper.map_type`: the dispatch chain, in source order.
The `ccsid` argument is accepted and ignored exactly as in the source. -/
def map_type (db2_type : String) (length precision scale : Option Nat)
    (for_bit_data : Bool) (_ccsid : Option String) : TypeMapping :=
  let t := pyStrip (upStr db2_type)
  if for_bit_data then map_for_bit_data t length
  else match DIRECT_MAPPINGS.lookup t with
  | some tgt => { source_type := t, target_type := tgt, status := ConversionStatus.direct }
  | none =>
    if t = "CHAR" ∨ t = "CHARACTER" then map_char length
    else if t = "VARCHAR" ∨ t = "CHAR VARYING" ∨ t = "CHARACTER VARYING" then map_varchar length
    else if t = "LONG VARCHAR" then map_long_varchar
    else if t = "CLOB" then map_clob length
    else if t = "DECIMAL" ∨ t = "DEC" ∨ t = "NUMERIC" then map_decimal precision scale
    else if t = "FLOAT" then map_float precision
    else if t = "DECFLOAT" then map_decfloat precision
    else if t = "TIME" then map_time precision
    else if t = "TIMESTAMP" then map_timestamp precision
    else if t = "BINARY" then map_binary length
    else if t = "VARBINARY" ∨ t = "BINARY VARYING" then map_varbinary length
    else if t = "BLOB" then map_blob length
    else if t = "GRAPHIC" then map_graphic length
    else if t = "VARGRAPHIC" then map_vargraphic length
    else if t = "LONG VARGRAPHIC" then map_long_vargraphic
    else if t = "DBCLOB" then map_dbclob length
    else if t = "XML" then map_xml
    else if t = "ROWID" then map_rowid
    else
      { source_type := t, target_type := "VARCHAR"
        status := ConversionStatus.lossy
        ewi_code := some "SSC-EWI-DB2ICE-0099"
        ewi_message := some ("Unknown DB2 type " ++ t ++ " converted to VARCHAR") }

/-! ## `db2ice.parser` — data model -/

/-- `Column` dataclass from `parser.py`. -/
structure Column where
  name : String
  data_type : String
  length : Option Nat := none
  precision : Option Nat := none
  scale : Option Nat := none
  nullable : Bool := true
  default : Option String := none
  generated : Option String := none
  ccsid : Option String := none
  for_bit_data : Bool := false
  fieldproc : Option String := none
  raw_definition : String := ""
deriving DecidableEq

/-- `Constraint` dataclass from `parser.py`.  The `type` field holds one of
"PRIMARY KEY", "UNIQUE", "FOREIGN KEY", "CHECK" as in the source. -/
structure Constraint where
  type : String
  name : Option String := none
  columns : List String := []
  reference_table : Option String := none
  reference_columns : List String := []
  check_condition : Option String := none
deriving DecidableEq

/-- `PartitionSpec` dataclass from `parser.py`. -/
structure PartitionSpec where
  type : String
  columns : List String := []
  partitions : List String := []
  raw_definition : String := ""
deriving DecidableEq

/-- `TableDefinition` dataclass from `parser.py`. -/
structure TableDefinition where
  schema : Option String := none
  name : String := ""
  columns : List Column := []
  constraints : List Constraint := []
  partition : Option PartitionSpec := none
  tablespace : Option String := none
  editproc : Option String := none
  validproc : Option String := none
  audit : Option String := none
  data_capture : Option String := none
  ccsid : Option String := none
  volatile : Bool := false
  global_temporary : Bool := false
  raw_ddl : String := ""
deriving DecidableEq

/-- `TableDefinition.full_name` property. -/
def TableDefinition.full_name (t : TableDefinition) : String :=
  match t.schema with
  | some s => s ++ "." ++ t.name
  | none => t.name

/-! ## `DB2Parser._split_statements` -/

/-- State of the statement-splitting scan in `_split_statements`:
completed statements, current buffer, string/paren tracking, and whether
the previously scanned character was a backslash (`prevB := false` at the
start of the input models the `i == 0` disjunct of the source's
`(i == 0 or ddl[i-1] != '\\')`). -/
structure SpState where
  acc : List (List Char)
  cur : List Char
  inStr : Bool
  depth : Int
  prevB : Bool

/-- The string-flag update of `_split_statements` (toggle on a quote
unless the previous character was a backslash). -/
def sp_instr (c : Char) (inStr prevB : Bool) : Bool :=
  if c = squoteCh ∧ ¬ prevB then !inStr else inStr

/-- The parenthesis-depth update of `_split_statements` (outside
strings only). -/
def sp_depth (c : Char) (inStr' : Bool) (depth : Int) : Int :=
  if ¬ inStr' then
    if c = '(' then depth + 1 else if c = ')' then depth - 1 else depth
  else depth

/-- The terminator test of `_split_statements`: `;` or `@` outside a
string at depth 0 (both flags already updated for this character). -/
def sp_isTerm (c : Char) (inStr' : Bool) (depth' : Int) : Bool :=
  (c = ';' || c = '@') && !inStr' && (depth' == 0)

/-- One character of `_split_statements`: toggle the string flag (unless
the quote is backslash-escaped), track parenthesis depth outside strings,
and emit the stripped current buffer on an unnested `;` or `@`. -/
def sp_step (st : SpState) (c : Char) : SpState :=
  let inStr' := sp_instr c st.inStr st.prevB
  let depth' := sp_depth c inStr' st.depth
  if sp_isTerm c inStr' depth' then
    { acc := st.acc ++ (if pyStripL st.cur = [] then [] else [pyStripL st.cur])
      cur := [], inStr := inStr', depth := depth', prevB := (c = bslashCh) }
  else
    { acc := st.acc, cur := st.cur ++ [c], inStr := inStr', depth := depth'
      prevB := (c = bslashCh) }

/-- Run the splitting scan over a character list. -/
def sp_run (st : SpState) (l : List Char) : SpState := l.foldl sp_step st

/-- `_split_statements`: scan the whole input, then append the final
statement (without terminator) if its stripped text is nonempty. -/
def split_statements (ddl : String) : List String :=
  let fin := sp_run ⟨[], [], false, 0, false⟩ ddl.data
  (fin.acc ++ (if pyStripL fin.cur = [] then [] else [pyStripL fin.cur])).map
    fun l => (⟨l⟩ : String)

/-! ## `DB2Parser` helper scans -/

/-- Python `str.split(sep)` for a one-character separator (always returns
`parts.length = separators + 1`, including empty parts). -/
def splitOnCh (c : Char) : List Char → List (List Char)
  | [] => [[]]
  | x :: t =>
    if x = c then [] :: splitOnCh c t
    else
      match splitOnCh c t with
      | h :: r => (x :: h) :: r
      | [] => [[x]]

/-- `_strip_leading_comments`: drop leading lines that are empty or
whole-line `--` comments, keep everything from the first code line on. -/
def strip_leading_comments (stmt : String) : String :=
  let ls := splitOnCh '\n' stmt.data
  let kept := ls.dropWhile fun line =>
    let s := pyStripL line
    s = [] ∨ leadsWith s "--".data
  ⟨List.intercalate ['\n'] kept⟩

/-- Consume one expected character. -/
def chomp (c : Char) (l : List Char) : Option (List Char) :=
  match l with
  | x :: r => if x = c then some r else none
  | [] => none

/-- `_find_matching_paren` inner scan: starting just inside an opening
parenthesis at depth 1, collect characters until the matching `)`;
returns (content, rest-after-close).  String literals are tracked with
the same backslash-escape rule as the splitter. -/
def fmp_go : List Char → Int → Bool → Bool → List Char → Option (List Char × List Char)
  | [], _, _, _, _ => none
  | c :: rest, depth, inStr, prevB, acc =>
    let inStr' := if c = squoteCh ∧ ¬ prevB then !inStr else inStr
    let depth' :=
      if ¬ inStr' then
        if c = '(' then depth + 1 else if c = ')' then depth - 1 else depth
      else depth
    if ¬ inStr' ∧ c = ')' ∧ depth' = 0 then some (acc, rest)
    else fmp_go rest depth' inStr' (c = bslashCh) (acc ++ [c])

/-- `_find_matching_paren`, packaged to return the content between the
outer parentheses and the text after the closing one.  The scan starts at
the `(` itself (whose own step only raises the depth to 1). -/
def find_matching_paren (l : List Char) : Option (List Char × List Char) :=
  match l with
  | '(' :: rest => fmp_go rest 1 false false []
  | _ => none

/-- `_split_column_defs` scan: split on top-level commas, tracking
parenthesis depth and single-quoted strings (the escape check looks at
the last character of the current buffer, as in the source). -/
def scd_go : List Char → Int → Bool → List Char → List (List Char) → List (List Char)
  | [], _, _, cur, parts => if cur = [] then parts else parts ++ [cur]
  | c :: rest, depth, inStr, cur, parts =>
    let inStr' :=
      if c = squoteCh ∧ (cur = [] ∨ cur.getLast? ≠ some bslashCh) then !inStr else inStr
    if ¬ inStr' then
      if c = '(' then scd_go rest (depth + 1) inStr' (cur ++ [c]) parts
      else if c = ')' then scd_go rest (depth - 1) inStr' (cur ++ [c]) parts
      else if c = ',' ∧ depth = 0 then scd_go rest depth inStr' [] (parts ++ [cur])
      else scd_go rest depth inStr' (cur ++ [c]) parts
    else scd_go rest depth inStr' (cur ++ [c]) parts

/-- `_split_column_defs`. -/
def split_column_defs (s : List Char) : List (List Char) := scd_go s 0 false [] []

/-- `_is_constraint`: the chunk (upper-cased, stripped) starts with, or
contains preceded by a space, one of the five constraint keywords. -/
def is_constraint (part : String) : Bool :=
  let u := pyStripL (upStr part).data
  ["PRIMARY KEY", "FOREIGN KEY", "UNIQUE", "CHECK", "CONSTRAINT"].any fun kw =>
    leadsWith u kw.data || hasSub u (" " ++ kw).data

/-- `_clean_identifier`: `identifier.strip('"').strip("'").strip('`')`. -/
def clean_identifier (s : String) : String :=
  ⟨stripCharL btickCh (stripCharL squoteCh (stripCharL '"' s.data))⟩

/-! ### `DATA_TYPE_PATTERN` -/

/-- The alternatives of `DATA_TYPE_PATTERN`, in the exact order of the
source regex (regex alternation is ordered, first match wins; multi-word
alternatives use `\s+` between words). -/
def typeAlternatives : List (List String) :=
  [["SMALLINT"], ["INTEGER"], ["INT"], ["BIGINT"], ["DECIMAL"], ["DEC"],
   ["NUMERIC"], ["REAL"], ["FLOAT"], ["DOUBLE"], ["DECFLOAT"],
   ["CHARACTER", "VARYING"], ["CHAR", "VARYING"], ["VARCHAR"],
   ["LONG", "VARCHAR"], ["CHARACTER"], ["CHAR"], ["CLOB"],
   ["GRAPHIC"], ["VARGRAPHIC"], ["LONG", "VARGRAPHIC"], ["DBCLOB"],
   ["BINARY", "VARYING"], ["VARBINARY"], ["BINARY"], ["BLOB"],
   ["DATE"], ["TIMESTAMP"], ["TIME"], ["XML"], ["ROWID"], ["BOOLEAN"]]

/-- Match a `\s+`-separated keyword sequence case-insensitively at the
front of `l`. -/
def matchWords : List String → List Char → Option (List Char)
  | [], l => some l
  | [w], l => ciLeads l w.data
  | w :: ws, l =>
    match ciLeads l w.data with
    | none => none
    | some r =>
      match wsPlus r with
      | none => none
      | some r2 => matchWords ws r2

/-- Try the ordered type alternatives; on success return the canonical
upper-cased, single-spaced type name (the source upper-cases the match and
collapses `\s+` to one space) and the rest. -/
def firstTypeAlt : List (List String) → List Char → Option (String × List Char)
  | [], _ => none
  | ws :: alts, l =>
    match matchWords ws l with
    | some r => some (String.intercalate " " ws, r)
    | none => firstTypeAlt alts l

/-- The optional size suffix `(?:\s*\(\s*(\d+)(?:\s*,\s*(\d+))?\s*\))?`
of `DATA_TYPE_PATTERN`. -/
def sizeSuffix (l : List Char) : Option (Nat × Option Nat × List Char) :=
  match chomp '(' (wsStar l) with
  | none => none
  | some r1 =>
    match digits1 (wsStar r1) with
    | none => none
    | some (n, r2) =>
      let second :=
        match chomp ',' (wsStar r2) with
        | none => none
        | some r3 =>
          match digits1 (wsStar r3) with
          | none => none
          | some (m, r4) => some (m, r4)
      match second with
      | some (m, r4) =>
        match chomp ')' (wsStar r4) with
        | some r5 => some (n, some m, r5)
        | none => none
      | none =>
        match chomp ')' (wsStar r2) with
        | some r5 => some (n, none, r5)
        | none => none

/-- `DATA_TYPE_PATTERN.match` at the start of `l`: the type alternation
followed by the optional size suffix (which backtracks to empty when it
cannot complete). -/
def parse_data_type (l : List Char) : Option (String × Option Nat × Option Nat × List Char) :=
  match firstTypeAlt typeAlternatives l with
  | none => none
  | some (tname, r1) =>
    match sizeSuffix r1 with
    | some (n, m, r2) => some (tname, some n, m, r2)
    | none => some (tname, none, none, r1)

/-! ### column attribute scans -/

/-- One attempt of `DEFAULT\s+(\S+|'[^']*')` at the front of `l` (the
`\S+` branch of the alternation wins whenever a non-space character
follows, which is whenever the pattern matches at all). -/
def matchDefaultAt (l : List Char) : Option String :=
  match ciLeads l "DEFAULT".data with
  | none => none
  | some r1 =>
    match wsPlus r1 with
    | none => none
    | some r2 =>
      match takeClass1 (fun c => ¬ isPyWs c) r2 with
      | some (tok, _) => some ⟨tok⟩
      | none => none

/-- One attempt of `CCSID\s+(\w+)`. -/
def matchCcsidAt (l : List Char) : Option String :=
  match ciLeads l "CCSID".data with
  | none => none
  | some r1 =>
    match wsPlus r1 with
    | none => none
    | some r2 =>
      match takeClass1 isWordCh r2 with
      | some (tok, _) => some ⟨tok⟩
      | none => none

/-- One attempt of `FIELDPROC\s+(\S+)`. -/
def matchFieldprocAt (l : List Char) : Option String :=
  match ciLeads l "FIELDPROC".data with
  | none => none
  | some r1 =>
    match wsPlus r1 with
    | none => none
    | some r2 =>
      match takeClass1 (fun c => ¬ isPyWs c) r2 with
      | some (tok, _) => some ⟨tok⟩
      | none => none

/-- `_parse_column`: leading `["\w]+` identifier, `DATA_TYPE_PATTERN`,
then the order-independent attribute scans on the remaining text. -/
def parse_column (col_def0 : String) : Option Column :=
  let cd := pyStripL col_def0.data
  if cd = [] then none
  else
    match takeClass1 isIdentCh cd with
    | none => none
    | some (nameTok, rest0) =>
      let remaining := pyStripL rest0
      match parse_data_type remaining with
      | none => none
      | some (tname, num1, num2, rest1) =>
        let remaining2 := pyStripL rest1
        let upperRem : List Char := remaining2.map upCh
        some
          { name := clean_identifier ⟨nameTok⟩
            data_type := tname
            length := num1
            precision := num1
            scale := num2
            nullable := ¬ hasSub upperRem "NOT NULL".data
            default := searchSuf matchDefaultAt remaining2
            generated :=
              if hasSub upperRem "GENERATED ALWAYS".data then some "ALWAYS"
              else if hasSub upperRem "GENERATED BY DEFAULT".data then some "BY DEFAULT"
              else none
            ccsid := searchSuf matchCcsidAt remaining2
            for_bit_data := hasSub upperRem "FOR BIT DATA".data
            fieldproc := searchSuf matchFieldprocAt remaining2
            raw_definition := ⟨cd⟩ }

/-! ### constraint parsing -/

/-- Capture `\(([^)]+)\)` at the front of `l` (after optional `\s*`):
an opening paren, a nonempty run of non-`)` characters, and the `)`. -/
def parenCapture (l : List Char) : Option (List Char × List Char) :=
  match chomp '(' (wsStar l) with
  | none => none
  | some r1 =>
    match takeClass1 (fun c => c ≠ ')') r1 with
    | none => none
    | some (content, r2) =>
      match chomp ')' r2 with
      | some r3 => some (content, r3)
      | none => none

/-- Split a captured column list on commas, strip and clean each item
(`[self._clean_identifier(c.strip()) for c in group.split(',')]`). -/
def cleanColumnList (content : List Char) : List String :=
  (splitOnCh ',' content).map fun c => clean_identifier ⟨pyStripL c⟩

/-- One attempt of `PRIMARY\s+KEY\s*\(([^)]+)\)`. -/
def matchPKAt (l : List Char) : Option (List Char) :=
  match matchWords ["PRIMARY", "KEY"] l with
  | none => none
  | some r =>
    match parenCapture r with
    | some (content, _) => some content
    | none => none

/-- One attempt of
`FOREIGN\s+KEY\s*\(([^)]+)\)\s*REFERENCES\s+(["\w.]+)\s*\(([^)]+)\)`. -/
def matchFKAt (l : List Char) : Option (List Char × String × List Char) :=
  match matchWords ["FOREIGN", "KEY"] l with
  | none => none
  | some r =>
    match parenCapture r with
    | none => none
    | some (cols, r2) =>
      match ciLeads (wsStar r2) "REFERENCES".data with
      | none => none
      | some r3 =>
        match wsPlus r3 with
        | none => none
        | some r4 =>
          match takeClass1 (fun c => isIdentCh c || c = '.') r4 with
          | none => none
          | some (tbl, r5) =>
            match parenCapture r5 with
            | some (refCols, _) => some (cols, ⟨tbl⟩, refCols)
            | none => none

/-- One attempt of `UNIQUE\s*\(([^)]+)\)`. -/
def matchUniqueAt (l : List Char) : Option (List Char) :=
  match ciLeads l "UNIQUE".data with
  | none => none
  | some r =>
    match parenCapture r with
    | some (content, _) => some content
    | none => none

/-- One attempt of `CHECK\s*\((.+)\)` with `re.DOTALL`: the greedy `.+`
captures everything up to the last `)` of the text (which must leave the
capture nonempty). -/
def matchCheckAt (l : List Char) : Option (List Char) :=
  match chomp '(' (wsStar (ciLeads l "CHECK".data |>.getD [])) with
  | none => none
  | some r1 =>
    if (ciLeads l "CHECK".data).isNone then none
    else
      let revAfter := r1.reverse.dropWhile (fun c => c ≠ ')')
      match revAfter with
      | [] => none
      | _ :: revContent =>
        let content := revContent.reverse
        if content = [] then none else some content

/-- `re.match(r'CONSTRAINT\s+(["\w]+)', ...)` — anchored at the start. -/
def matchConstraintName (l : List Char) : Option String :=
  match ciLeads l "CONSTRAINT".data with
  | none => none
  | some r1 =>
    match wsPlus r1 with
    | none => none
    | some r2 =>
      match takeClass1 isIdentCh r2 with
      | some (tok, _) => some (clean_identifier ⟨tok⟩)
      | none => none

/-- `_parse_constraint`: dispatch on keyword presence in the upper-cased
text, in source order (PRIMARY KEY, FOREIGN KEY, UNIQUE, CHECK); a chunk
matching none of them yields no constraint. -/
def parse_constraint (cdef : String) : Option Constraint :=
  let u := (upStr cdef).data
  let cname := matchConstraintName cdef.data
  if hasSub u "PRIMARY KEY".data then
    some { type := "PRIMARY KEY", name := cname
           columns := ((searchSuf matchPKAt cdef.data).map cleanColumnList).getD [] }
  else if hasSub u "FOREIGN KEY".data then
    match searchSuf matchFKAt cdef.data with
    | some (cols, tbl, refCols) =>
      some { type := "FOREIGN KEY", name := cname
             columns := cleanColumnList cols
             reference_table := some tbl
             reference_columns := cleanColumnList refCols }
    | none => some { type := "FOREIGN KEY", name := cname }
  else if hasSub u "UNIQUE".data then
    some { type := "UNIQUE", name := cname
           columns := ((searchSuf matchUniqueAt cdef.data).map cleanColumnList).getD [] }
  else if hasSub u "CHECK".data then
    some { type := "CHECK", name := cname
           check_condition := (searchSuf matchCheckAt cdef.data).map fun c => (⟨pyStripL c⟩ : String) }
  else none

/-! ### table options -/

/-- One attempt of `IN\s+(["\w]+)`. -/
def matchTablespaceAt (l : List Char) : Option String :=
  match ciLeads l "IN".data with
  | none => none
  | some r1 =>
    match wsPlus r1 with
    | none => none
    | some r2 =>
      match takeClass1 isIdentCh r2 with
      | some (tok, _) => some (clean_identifier ⟨tok⟩)
      | none => none

/-- One attempt of `KW\s+(["\w.]+)` for EDITPROC / VALIDPROC (the source
stores the raw captured group, without identifier cleaning). -/
def matchProcAt (kw : String) (l : List Char) : Option String :=
  match ciLeads l kw.data with
  | none => none
  | some r1 =>
    match wsPlus r1 with
    | none => none
    | some r2 =>
      match takeClass1 (fun c => isIdentCh c || c = '.') r2 with
      | some (tok, _) => some ⟨tok⟩
      | none => none

/-- Try a list of literal alternatives in order (regex `(A|B|C)`),
returning the canonical upper-case text of the matched one. -/
def altKeyword : List String → List Char → Option (String × List Char)
  | [], _ => none
  | w :: ws, l =>
    match ciLeads l w.data with
    | some r => some (w, r)
    | none => altKeyword ws l

/-- One attempt of `AUDIT\s+(NONE|CHANGES|ALL)`. -/
def matchAuditAt (l : List Char) : Option String :=
  match ciLeads l "AUDIT".data with
  | none => none
  | some r1 =>
    match wsPlus r1 with
    | none => none
    | some r2 =>
      (altKeyword ["NONE", "CHANGES", "ALL"] r2).map fun p => p.1

/-- One attempt of `DATA\s+CAPTURE\s+(NONE|CHANGES)`. -/
def matchDataCaptureAt (l : List Char) : Option String :=
  match matchWords ["DATA", "CAPTURE"] l with
  | none => none
  | some r1 =>
    match wsPlus r1 with
    | none => none
    | some r2 =>
      (altKeyword ["NONE", "CHANGES"] r2).map fun p => p.1

/-- One attempt of `CCSID\s+(ASCII|UNICODE|EBCDIC)`. -/
def matchTableCcsidAt (l : List Char) : Option String :=
  match ciLeads l "CCSID".data with
  | none => none
  | some r1 =>
    match wsPlus r1 with
    | none => none
    | some r2 =>
      (altKeyword ["ASCII", "UNICODE", "EBCDIC"] r2).map fun p => p.1

/-- One attempt of `PARTITION\s+BY\s+(RANGE|HASH)\s*\(([^)]+)\)`,
returning the partition spec; `raw_definition` is the matched text
(group 0), reconstructed from the consumed character count. -/
def matchPartitionAt (l : List Char) : Option PartitionSpec :=
  match matchWords ["PARTITION", "BY"] l with
  | none => none
  | some r1 =>
    match wsPlus r1 with
    | none => none
    | some r2 =>
      match altKeyword ["RANGE", "HASH"] r2 with
      | none => none
      | some (kind, r3) =>
        match parenCapture r3 with
        | none => none
        | some (content, r4) =>
          some { type := kind
                 columns := cleanColumnList content
                 raw_definition := ⟨l.take (l.length - r4.length)⟩ }

/-- `_parse_table_options`: the sequential scans for tablespace,
EDITPROC, VALIDPROC, AUDIT, DATA CAPTURE, CCSID and PARTITION BY, each
gated and searched exactly as in the source.  Each scan assigns its own
field and reads none of the others, so the sequential assignments are
modelled as one record update (a failed scan leaves the field as it
was). -/
def parse_table_options (options : String) (t0 : TableDefinition) : TableDefinition :=
  let u := (upStr options).data
  let od := options.data
  { t0 with
    tablespace :=
      match searchSuf matchTablespaceAt od with
      | some v => some v
      | none => t0.tablespace
    editproc :=
      if hasSub u "EDITPROC".data then
        match searchSuf (matchProcAt "EDITPROC") od with
        | some v => some v
        | none => t0.editproc
      else t0.editproc
    validproc :=
      if hasSub u "VALIDPROC".data then
        match searchSuf (matchProcAt "VALIDPROC") od with
        | some v => some v
        | none => t0.validproc
      else t0.validproc
    audit :=
      if hasSub u "AUDIT".data then
        match searchSuf matchAuditAt od with
        | some v => some v
        | none => t0.audit
      else t0.audit
    data_capture :=
      if hasSub u "DATA CAPTURE".data then
        match searchSuf matchDataCaptureAt od with
        | some v => some v
        | none => t0.data_capture
      else t0.data_capture
    ccsid :=
      match searchSuf matchTableCcsidAt od with
      | some v => some v
      | none => t0.ccsid
    partition :=
      if hasSub u "PARTITION BY".data then
        match searchSuf matchPartitionAt od with
        | some p => some p
        | none => t0.partition
      else t0.partition }

/-! ### statement headers and the parse pipeline -/

/-- Result of matching `CREATE_TABLE_PATTERN`: the two modifier groups,
the optional schema token, the name token, and the suffix of the input
beginning at the matched `(`. -/
structure Db2Header where
  vol : Bool
  gt : Bool
  schemaTok : Option (List Char)
  nameTok : List Char
  restAtParen : List Char

/-- One attempt of `CREATE_TABLE_PATTERN`
(`CREATE\s+(?:(VOLATILE)\s+)?(?:(GLOBAL\s+TEMPORARY)\s+)?TABLE\s+`
`(?:(["\w]+)\.)?(["\w]+)\s*\(`) at the front of `l`.  The optional
groups and the schema/name split are resolved greedily; as the token
classes exclude the delimiters that follow them, this agrees with the
backtracking regex on all inputs the parser accepts. -/
def matchHeaderAt (l : List Char) : Option Db2Header :=
  match ciLeads l "CREATE".data with
  | none => none
  | some r1 =>
    match wsPlus r1 with
    | none => none
    | some r2 =>
      let (vol, r3) :=
        match (ciLeads r2 "VOLATILE".data).bind wsPlus with
        | some r => (true, r)
        | none => (false, r2)
      let (gt, r4) :=
        match (matchWords ["GLOBAL", "TEMPORARY"] r3).bind wsPlus with
        | some r => (true, r)
        | none => (false, r3)
      match ciLeads r4 "TABLE".data with
      | none => none
      | some r5 =>
        match wsPlus r5 with
        | none => none
        | some r6 =>
          match takeClass1 isIdentCh r6 with
          | none => none
          | some (tok1, r7) =>
            match r7 with
            | '.' :: r8 =>
              match takeClass1 isIdentCh r8 with
              | none => none
              | some (tok2, r9) =>
                let r10 := wsStar r9
                match r10 with
                | '(' :: _ => some ⟨vol, gt, some tok1, tok2, r10⟩
                | _ => none
            | _ =>
              let r10 := wsStar r7
              match r10 with
              | '(' :: _ => some ⟨vol, gt, none, tok1, r10⟩
              | _ => none

/-- One attempt of `DECLARE_TEMP_PATTERN`
(`DECLARE\s+GLOBAL\s+TEMPORARY\s+TABLE\s+(?:(["\w]+)\.)?(["\w]+)\s*\(`). -/
def matchDeclareAt (l : List Char) : Option Db2Header :=
  match matchWords ["DECLARE", "GLOBAL", "TEMPORARY", "TABLE"] l with
  | none => none
  | some r5 =>
    match wsPlus r5 with
    | none => none
    | some r6 =>
      match takeClass1 isIdentCh r6 with
      | none => none
      | some (tok1, r7) =>
        match r7 with
        | '.' :: r8 =>
          match takeClass1 isIdentCh r8 with
          | none => none
          | some (tok2, r9) =>
            let r10 := wsStar r9
            match r10 with
            | '(' :: _ => some ⟨false, true, some tok1, tok2, r10⟩
            | _ => none
        | _ =>
          let r10 := wsStar r7
          match r10 with
          | '(' :: _ => some ⟨false, true, none, tok1, r10⟩
          | _ => none

/-- `re.match(r'^\s*CREATE\s+(?:VOLATILE\s+)?(?:GLOBAL\s+TEMPORARY\s+)?TABLE', ...)`
used to gate CREATE TABLE statements. -/
def createGate (s : String) : Bool :=
  let r2? := (ciLeads (wsStar s.data) "CREATE".data).bind wsPlus
  match r2? with
  | none => false
  | some r2 =>
    let r3 :=
      match (ciLeads r2 "VOLATILE".data).bind wsPlus with
      | some r => r
      | none => r2
    let r4 :=
      match (matchWords ["GLOBAL", "TEMPORARY"] r3).bind wsPlus with
      | some r => r
      | none => r3
    (ciLeads r4 "TABLE".data).isSome

/-- `re.match(r'^\s*DECLARE\s+GLOBAL\s+TEMPORARY\s+TABLE', ...)`. -/
def declareGate (s : String) : Bool :=
  (matchWords ["DECLARE", "GLOBAL", "TEMPORARY", "TABLE"] (wsStar s.data)).isSome

/-- One chunk of `_parse_columns_and_constraints`: classify it as a
constraint or a column and append the successfully parsed result. -/
def pcc_step (acc : TableDefinition) (part : List Char) : TableDefinition :=
  let p := pyStripL part
  if p = [] then acc
  else if is_constraint ⟨p⟩ then
    match parse_constraint ⟨p⟩ with
    | some c => { acc with constraints := acc.constraints ++ [c] }
    | none => acc
  else
    match parse_column ⟨p⟩ with
    | some c => { acc with columns := acc.columns ++ [c] }
    | none => acc

/-- `_parse_columns_and_constraints`: classify each top-level chunk as a
constraint or a column and append the successfully parsed ones in
order. -/
def parse_cols_constraints (columnsStr : List Char) (t : TableDefinition) : TableDefinition :=
  (split_column_defs columnsStr).foldl pcc_step t

/-- Shared tail of `_parse_create_table` / `_parse_declare_temp_table`:
given a matched header, locate the column list, parse columns,
constraints and table options. -/
def parse_table_body (stmt : String) (h : Db2Header) (base : TableDefinition) :
    Option TableDefinition :=
  match find_matching_paren h.restAtParen with
  | none => none
  | some (columnsStr, optionsStr) =>
    let t0 :=
      { base with
        raw_ddl := stmt
        schema := h.schemaTok.map fun tk => clean_identifier ⟨tk⟩
        name := clean_identifier ⟨h.nameTok⟩ }
    let t1 := parse_cols_constraints columnsStr t0
    some (parse_table_options ⟨optionsStr⟩ t1)

/-- `_parse_create_table`. -/
def parse_create_table (stmt : String) : Option TableDefinition :=
  match searchSuf matchHeaderAt stmt.data with
  | none => none
  | some h =>
    parse_table_body stmt h { volatile := h.vol, global_temporary := h.gt }

/-- `_parse_declare_temp_table` (always `global_temporary := true`). -/
def parse_declare_temp_table (stmt : String) : Option TableDefinition :=
  match searchSuf matchDeclareAt stmt.data with
  | none => none
  | some h =>
    parse_table_body stmt h { global_temporary := true }

/-- `DB2Parser.parse`: split the script, strip leading comments, gate on
the recognized statement forms, and collect the tables that parse (the
source records per-statement warnings/errors in accumulators that do not
affect the returned list, so they are not modelled). -/
def db2Parse (ddl : String) : List TableDefinition :=
  (split_statements ddl).filterMap fun stmt0 =>
    if (pyStrip stmt0).data = [] then none
    else if createGate (strip_leading_comments (pyStrip stmt0)) then
      parse_create_table (strip_leading_comments (pyStrip stmt0))
    else if declareGate (strip_leading_comments (pyStrip stmt0)) then
      parse_declare_temp_table (strip_leading_comments (pyStrip stmt0))
    else none

/-! ## `db2ice.assessor` -/

/-- `ReadinessLevel` enum. -/
inductive ReadinessLevel where
  | green
  | yellow
  | red
deriving DecidableEq

/-- `IssueSeverity` enum. -/
inductive IssueSeverity where
  | critical
  | warning
  | info
deriving DecidableEq

/-- `Issue` dataclass.  `message` is a `String`; the one construction
site that passes a possibly-`None` value (`mapping.ewi_message` in the
COMPATIBLE branch) is modelled with `getD ""` — every COMPATIBLE mapping
that carries an `ewi_code` also sets `ewi_message` in `mapper.py`, so the
fallback is never taken. -/
structure Issue where
  code : String
  severity : IssueSeverity
  message : String
  table_name : Option String := none
  column_name : Option String := none
  suggestion : Option String := none
deriving DecidableEq

/-- `TableAssessment` dataclass (scores as `ℚ`). -/
structure TableAssessment where
  table_name : String
  schema : Option String := none
  column_count : Nat := 0
  constraint_count : Nat := 0
  readiness_score : ℚ := 100
  readiness_level : ReadinessLevel := ReadinessLevel.green
  can_auto_convert : Bool := true
  issues : List Issue := []
  type_distribution : List (String × Nat) := []
deriving DecidableEq

/-- `AssessmentReport` dataclass with its dataclass defaults (in
particular `overall_score = 0.0` and `overall_level = GREEN`). -/
structure AssessmentReport where
  tables_total : Nat := 0
  tables_auto : Nat := 0
  tables_manual : Nat := 0
  tables_blocked : Nat := 0
  overall_score : ℚ := 0
  overall_level : ReadinessLevel := ReadinessLevel.green
  datatype_score : ℚ := 0
  constraint_score : ℚ := 0
  partition_score : ℚ := 0
  special_features_score : ℚ := 0
  total_columns : Nat := 0
  total_constraints : Nat := 0
  critical_issues : List Issue := []
  warnings : List Issue := []
  info_items : List Issue := []
  table_assessments : List TableAssessment := []
  type_distribution : List (String × Nat) := []
  features_used : List (String × Nat) := []
deriving DecidableEq

/-- `_score_to_level`: GREEN ≥ 80, YELLOW ≥ 50, RED below. -/
def score_to_level (score : ℚ) : ReadinessLevel :=
  if score ≥ 80 then ReadinessLevel.green
  else if score ≥ 50 then ReadinessLevel.yellow
  else ReadinessLevel.red

/-- Python-dict counting: `d[k] = d.get(k, 0) + n` preserving insertion
order. -/
def bumpCount : List (String × Nat) → String → Nat → List (String × Nat)
  | [], k, n => [(k, n)]
  | (k', m) :: t, k, n =>
    if k' = k then (k', m + n) :: t else (k', m) :: bumpCount t k n

/-- The per-column part of `_assess_table`: the data-type mapping checks
followed by the FIELDPROC and GENERATED checks, in source order.
Returns (penalty, issues, kills-auto-convert). -/
def assess_column (tname : String) (col : Column) : Nat × List Issue × Bool :=
  let mapping := map_type col.data_type col.length col.precision col.scale
    col.for_bit_data col.ccsid
  let (p1, i1, k1) : Nat × List Issue × Bool :=
    if mapping.status = ConversionStatus.unsupported then
      (25,
       [{ code := mapping.ewi_code.getD "SSC-EWI-DB2ICE-0099"
          severity := IssueSeverity.critical
          message := mapping.ewi_message.getD ("Unsupported type: " ++ col.data_type)
          table_name := some tname
          column_name := some col.name
          suggestion := some "Manual conversion required - consider alternative data model" }],
       true)
    else if mapping.status = ConversionStatus.lossy then
      (10,
       [{ code := mapping.ewi_code.getD "SSC-EWI-DB2ICE-0098"
          severity := IssueSeverity.warning
          message := mapping.ewi_message.getD ("Lossy conversion: " ++ col.data_type)
          table_name := some tname
          column_name := some col.name
          suggestion := some "Review data to ensure no precision/data loss" }],
       false)
    else if mapping.status = ConversionStatus.compatible ∧ mapping.ewi_code.isSome then
      (2,
       [{ code := mapping.ewi_code.getD ""
          severity := IssueSeverity.info
          message := mapping.ewi_message.getD ""
          table_name := some tname
          column_name := some col.name }],
       false)
    else (0, [], false)
  let (p2, i2, k2) : Nat × List Issue × Bool :=
    match col.fieldproc with
    | some fp =>
      (50,
       [{ code := "SSC-EWI-DB2ICE-0011"
          severity := IssueSeverity.critical
          message := "FIELDPROC " ++ fp ++ " - column data may be encrypted/transformed"
          table_name := some tname
          column_name := some col.name
          suggestion := some "Review FIELDPROC logic - data transformation required before migration" }],
       true)
    | none => (0, [], false)
  let (p3, i3) : Nat × List Issue :=
    match col.generated with
    | some g =>
      (15,
       [{ code := "SSC-EWI-DB2ICE-0014"
          severity := IssueSeverity.warning
          message := "GENERATED " ++ g ++ " column - Iceberg does not support generated columns"
          table_name := some tname
          column_name := some col.name
          suggestion := some "Remove GENERATED clause or compute values during ETL" }])
    | none => (0, [])
  (p1 + p2 + p3, i1 ++ i2 ++ i3, k1 || k2)

/-- The per-constraint part of `_assess_table`. -/
def assess_constraint (tname : String) (c : Constraint) : Nat × List Issue :=
  if c.type = "FOREIGN KEY" then
    (5,
     [{ code := "SSC-EWI-DB2ICE-0016"
        severity := IssueSeverity.info
        message := "Foreign key constraint - not enforced in Iceberg tables"
        table_name := some tname
        suggestion := some "Foreign key will be documented but not enforced" }])
  else if c.type = "CHECK" then
    (5,
     [{ code := "SSC-EWI-DB2ICE-0015"
        severity := IssueSeverity.info
        message := "CHECK constraint - not enforced in Iceberg tables"
        table_name := some tname
        suggestion := some "CHECK constraint will be documented but not enforced" }])
  else (0, [])

/-- `col.data_type.split('(')[0].strip()`. -/
def baseTypeName (dt : String) : String := ⟨pyStripL (dt.data.takeWhile (· ≠ '('))⟩

/-- The EDITPROC part of `_assess_table`. -/
def assess_editproc (tname : String) (o : Option String) : Nat × List Issue × Bool :=
  match o with
  | some v =>
    (50,
     [{ code := "SSC-EWI-DB2ICE-0012"
        severity := IssueSeverity.critical
        message := "EDITPROC " ++ v ++ " - table uses edit procedure for data transformation"
        table_name := some tname
        suggestion := some "Review EDITPROC logic - data may require transformation before migration" }],
     true)
  | none => (0, [], false)

/-- The VALIDPROC part of `_assess_table`. -/
def assess_validproc (tname : String) (o : Option String) : Nat × List Issue × Bool :=
  match o with
  | some v =>
    (40,
     [{ code := "SSC-EWI-DB2ICE-0013"
        severity := IssueSeverity.critical
        message := "VALIDPROC " ++ v ++ " - table uses validation procedure"
        table_name := some tname
        suggestion := some "Implement validation logic in application layer or Snowflake procedures" }],
     true)
  | none => (0, [], false)

/-- The partition part of `_assess_table`. -/
def assess_partition (tname : String) (o : Option PartitionSpec) : Nat × List Issue :=
  match o with
  | some part =>
    if part.type = "HASH" then
      (20,
       [{ code := "SSC-EWI-DB2ICE-0017"
          severity := IssueSeverity.warning
          message := "HASH partitioning not directly supported - will be removed"
          table_name := some tname
          suggestion := some "Iceberg uses automatic micro-partitioning" }])
    else if part.type = "RANGE" then
      (0,
       [{ code := "SSC-EWI-DB2ICE-0017"
          severity := IssueSeverity.info
          message := "RANGE partitioning will be removed - Iceberg uses automatic partitioning"
          table_name := some tname
          suggestion := some "Consider Iceberg partition transforms if needed" }])
    else (0, [])
  | none => (0, [])

/-- The accumulated penalty total of `_assess_table`. -/
def table_penalties (table : TableDefinition) : Nat :=
  let tname := table.full_name
  ((table.columns.map (assess_column tname)).map fun p => p.1).sum +
  ((table.constraints.map (assess_constraint tname)).map fun p => p.1).sum +
  (assess_editproc tname table.editproc).1 +
  (assess_validproc tname table.validproc).1 +
  (assess_partition tname table.partition).1

/-- The accumulated issue list of `_assess_table`, in emission order. -/
def table_issues (table : TableDefinition) : List Issue :=
  let tname := table.full_name
  ((table.columns.map (assess_column tname)).map fun p => p.2.1).flatten ++
  ((table.constraints.map (assess_constraint tname)).map fun p => p.2).flatten ++
  (assess_editproc tname table.editproc).2.1 ++
  (assess_validproc tname table.validproc).2.1 ++
  (assess_partition tname table.partition).2

/-- The `can_auto_convert` flag of `_assess_table` (true unless some
column check or EDITPROC/VALIDPROC cleared it). -/
def table_can_auto (table : TableDefinition) : Bool :=
  let tname := table.full_name
  ¬ (((table.columns.map (assess_column tname)).map fun p => p.2.2).any id ||
     (assess_editproc tname table.editproc).2.2 ||
     (assess_validproc tname table.validproc).2.2)

/-- `_assess_table`: accumulate penalties and issues over columns,
constraints, EDITPROC, VALIDPROC and the partition spec, then
`readiness_score = max(0, 100 - penalties)` (natural subtraction). -/
def assess_table (table : TableDefinition) : TableAssessment :=
  { table_name := table.name
    schema := table.schema
    column_count := table.columns.length
    constraint_count := table.constraints.length
    readiness_score := ((100 - table_penalties table : ℕ) : ℚ)
    readiness_level := score_to_level ((100 - table_penalties table : ℕ) : ℚ)
    can_auto_convert := table_can_auto table
    issues := table_issues table
    type_distribution :=
      table.columns.foldl (fun d col => bumpCount d (baseTypeName col.data_type) 1) [] }

/-- The DATATYPE code bucket of `_calculate_component_scores`. -/
def datatypeCodes : List String :=
  ["SSC-EWI-DB2ICE-0001", "SSC-EWI-DB2ICE-0002", "SSC-EWI-DB2ICE-0003",
   "SSC-EWI-DB2ICE-0004", "SSC-EWI-DB2ICE-0005", "SSC-EWI-DB2ICE-0006",
   "SSC-EWI-DB2ICE-0007", "SSC-EWI-DB2ICE-0008", "SSC-EWI-DB2ICE-0009",
   "SSC-EWI-DB2ICE-0010"]

/-- Component scores (datatype, constraint, partition, special). -/
structure CompScores where
  datatype : ℚ := 100
  constraint : ℚ := 100
  partition : ℚ := 100
  special : ℚ := 100
deriving DecidableEq

/-- `_calculate_component_scores`: per-issue, code-keyed deductions with
a floor of 0 per component. -/
def calc_component_scores (ta : TableAssessment) : CompScores :=
  ta.issues.foldl
    (fun s issue =>
      let code := issue.code
      if strHas code "DATATYPE" || datatypeCodes.contains code then
        let pen : ℚ :=
          match issue.severity with
          | IssueSeverity.info => 5
          | IssueSeverity.warning => 15
          | IssueSeverity.critical => 30
        { s with datatype := max 0 (s.datatype - pen) }
      else if code = "SSC-EWI-DB2ICE-0015" || code = "SSC-EWI-DB2ICE-0016" then
        let pen : ℚ := if issue.severity = IssueSeverity.info then 5 else 10
        { s with constraint := max 0 (s.constraint - pen) }
      else if code = "SSC-EWI-DB2ICE-0017" then
        let pen : ℚ := if issue.severity = IssueSeverity.info then 10 else 20
        { s with partition := max 0 (s.partition - pen) }
      else if code = "SSC-EWI-DB2ICE-0011" || code = "SSC-EWI-DB2ICE-0012" ||
              code = "SSC-EWI-DB2ICE-0013" || code = "SSC-EWI-DB2ICE-0014" then
        let pen : ℚ :=
          match issue.severity with
          | IssueSeverity.info => 10
          | IssueSeverity.warning => 25
          | IssueSeverity.critical => 50
        { s with special := max 0 (s.special - pen) }
      else s)
    {}

/-- `_aggregate_features`: the fixed feature-count dictionary. -/
def aggregate_features (tables : List TableDefinition) : List (String × Nat) :=
  [("editproc", (tables.filter fun t => t.editproc.isSome).length),
   ("validproc", (tables.filter fun t => t.validproc.isSome).length),
   ("fieldproc", ((tables.map fun t => (t.columns.filter fun c => c.fieldproc.isSome).length).sum)),
   ("partitioning", (tables.filter fun t => t.partition.isSome).length),
   ("generated_columns", ((tables.map fun t => (t.columns.filter fun c => c.generated.isSome).length).sum)),
   ("foreign_keys", ((tables.map fun t => (t.constraints.filter fun c => c.type = "FOREIGN KEY").length).sum)),
   ("check_constraints", ((tables.map fun t => (t.constraints.filter fun c => c.type = "CHECK").length).sum)),
   ("xml_columns", ((tables.map fun t => (t.columns.filter fun c => upStr c.data_type = "XML").length).sum)),
   ("graphic_columns", ((tables.map fun t => (t.columns.filter fun c => ["GRAPHIC", "VARGRAPHIC", "DBCLOB", "LONG VARGRAPHIC"].contains (upStr c.data_type)).length).sum)),
   ("lob_columns", ((tables.map fun t => (t.columns.filter fun c => ["CLOB", "BLOB", "DBCLOB"].contains (upStr c.data_type)).length).sum))]

/-- The weights of `Assessor.WEIGHTS` as exact rationals. -/
def W_DATATYPE : ℚ := 40 / 100
/-- Weight of the constraint sub-score. -/
def W_CONSTRAINT : ℚ := 20 / 100
/-- Weight of the partition sub-score. -/
def W_PARTITION : ℚ := 15 / 100
/-- Weight of the special-features sub-score. -/
def W_SPECIAL : ℚ := 25 / 100

/-- `Assessor.assess` on an already-parsed table list: the degenerate
no-tables report (dataclass defaults plus the single CRITICAL issue) or
the aggregated per-table assessment. -/
def assess_report (tables : List TableDefinition) : AssessmentReport :=
  if tables = [] then
    { critical_issues :=
        [{ code := "SSC-EWI-DB2ICE-0000"
           severity := IssueSeverity.critical
           message := "No valid CREATE TABLE statements found in input" }] }
  else
    let tas := tables.map assess_table
    let allIssues := (tas.map fun ta => ta.issues).flatten
    let comp := tas.map calc_component_scores
    let n : ℚ := (tas.length : ℚ)
    let dScore := if comp = [] then 100 else (comp.map fun c => c.datatype).sum / n
    let cScore := if comp = [] then 100 else (comp.map fun c => c.constraint).sum / n
    let pScore := if comp = [] then 100 else (comp.map fun c => c.partition).sum / n
    let sScore := if comp = [] then 100 else (comp.map fun c => c.special).sum / n
    let overall := dScore * W_DATATYPE + cScore * W_CONSTRAINT +
      pScore * W_PARTITION + sScore * W_SPECIAL
    { tables_total := tables.length
      tables_auto := (tas.filter fun ta => ta.can_auto_convert).length
      tables_manual :=
        (tas.filter fun ta =>
          ¬ ta.can_auto_convert ∧
            ¬ ta.issues.any fun i => i.severity = IssueSeverity.critical).length
      tables_blocked :=
        (tas.filter fun ta =>
          ¬ ta.can_auto_convert ∧
            ta.issues.any fun i => i.severity = IssueSeverity.critical).length
      overall_score := overall
      overall_level := score_to_level overall
      datatype_score := dScore
      constraint_score := cScore
      partition_score := pScore
      special_features_score := sScore
      total_columns := (tas.map fun ta => ta.column_count).sum
      total_constraints := (tas.map fun ta => ta.constraint_count).sum
      critical_issues := allIssues.filter fun i => i.severity = IssueSeverity.critical
      warnings := allIssues.filter fun i => i.severity = IssueSeverity.warning
      info_items := allIssues.filter fun i => i.severity = IssueSeverity.info
      table_assessments := tas
      type_distribution :=
        tas.foldl (fun d ta => ta.type_distribution.foldl (fun d2 kv => bumpCount d2 kv.1 kv.2) d) []
      features_used := aggregate_features tables }

/-- `Assessor.assess`: parse, then assess. -/
def assess (ddl : String) : AssessmentReport :=
  assess_report (db2Parse ddl)

/-! ## `db2ice.converter` — DB2 → Iceberg converter -/

/-- `ConversionResult` dataclass from `converter.py`. -/
structure ConversionResult where
  iceberg_ddl : String
  assessment : AssessmentReport
  ewi_count : Nat := 0
  tables_converted : Nat := 0
  success : Bool := true
  error_message : Option String := none
deriving DecidableEq

/-- The constructor configuration of `DB2IceConverter` (read-only for
the lifetime of the converter). -/
structure ConverterConfig where
  external_volume : String := "<EXTERNAL_VOLUME>"
  base_location_pattern : String := "{schema}/{table}"
  include_comments : Bool := true
  include_ewi : Bool := true

/-- Render an optional string the way a Python f-string or `str.format`
would (`None` prints as the text `None`). -/
def fmtOptStr : Option String → String
  | some s => s
  | none => "None"

/-- `EWI_TEMPLATE.format(...)` / `_format_ewi`. -/
def format_ewi (code message : String) : String :=
  "!!!RESOLVE EWI!!! /*** " ++ code ++ " - " ++ message ++ " ***/!!!"

/-- ASCII letter test for the identifier regex. -/
def isAsciiLetter (c : Char) : Bool :=
  (65 ≤ c.toNat && c.toNat ≤ 90) || (97 ≤ c.toNat && c.toNat ≤ 122)

/-- `re.match(r'^[A-Za-z_][A-Za-z0-9_]*$', identifier)` as a Boolean. -/
def isIdentShaped (s : String) : Bool :=
  match s.data with
  | [] => false
  | c :: rest =>
    (isAsciiLetter c || c = '_') &&
      rest.all fun d => isAsciiLetter d || isDigitCh d || d = '_'

/-- The reserved-word set of `_needs_quoting` (shared verbatim by both
converters). -/
def RESERVED_WORDS : List String :=
  ["ORDER", "GROUP", "SELECT", "FROM", "WHERE", "TABLE", "INDEX",
   "CREATE", "DROP", "ALTER", "INSERT", "UPDATE", "DELETE", "VALUES",
   "AND", "OR", "NOT", "NULL", "TRUE", "FALSE", "DATE", "TIME", "TIMESTAMP"]

/-- `_needs_quoting`. -/
def needs_quoting (identifier : String) : Bool :=
  RESERVED_WORDS.contains (upStr identifier) || ¬ isIdentShaped identifier

/-- `_format_identifier`: double-quote and preserve case when quoting is
needed, otherwise upper-case. -/
def format_identifier (identifier : String) : String :=
  if needs_quoting identifier then "\"" ++ identifier ++ "\""
  else upStr identifier

/-- Python `str.replace(pat, repl)` scan (all occurrences, left to
right, non-overlapping; the patterns used here are nonempty).  The
second argument counts characters still to skip after a match. -/
def replaceSubGo (pat repl : List Char) : List Char → Nat → List Char
  | [], _ => []
  | _ :: t, k + 1 => replaceSubGo pat repl t k
  | c :: t, 0 =>
    if leadsWith (c :: t) pat ∧ 1 ≤ pat.length then
      repl ++ replaceSubGo pat repl t (pat.length - 1)
    else c :: replaceSubGo pat repl t 0

/-- Python `str.replace` on strings. -/
def replaceSub (s pat repl : String) : String :=
  ⟨replaceSubGo pat.data repl.data s.data 0⟩

/-- `_generate_base_location`: substitute `{schema}` / `{table}` in the
configured pattern, lower-cased, with `default` for a missing schema. -/
def generate_base_location (cfg : ConverterConfig) (t : TableDefinition) : String :=
  let schema := t.schema.getD "default"
  replaceSub (replaceSub cfg.base_location_pattern "{schema}" (lowStr schema))
    "{table}" (lowStr t.name)

/-- `_has_pk_constraint`. -/
def has_pk_constraint (cs : List Constraint) : Bool :=
  cs.any fun c => c.type = "PRIMARY KEY"

/-- `_get_pk_constraint`. -/
def get_pk_constraint (cs : List Constraint) : Option Constraint :=
  cs.find? fun c => c.type = "PRIMARY KEY"

/-- `_generate_constraint_comments`: human-readable comments for non-PK
constraints (missing FK reference data and CHECK conditions print as the
Python text `None`). -/
def generate_constraint_comments (cs : List Constraint) : List String :=
  (cs.map fun c =>
    if c.type = "PRIMARY KEY" then []
    else if c.type = "FOREIGN KEY" then
      let refCols := String.intercalate ", " c.reference_columns
      let cols := String.intercalate ", " c.columns
      let nm := match c.name with | some n => " " ++ n | none => ""
      ["-- FOREIGN KEY" ++ nm ++ ": (" ++ cols ++ ") REFERENCES " ++
         fmtOptStr c.reference_table ++ "(" ++ refCols ++ ")",
       "-- NOTE: Foreign keys are not enforced in Iceberg tables"]
    else if c.type = "UNIQUE" then
      let cols := String.intercalate ", " c.columns
      let nm := match c.name with | some n => " " ++ n | none => ""
      ["-- UNIQUE" ++ nm ++ ": (" ++ cols ++ ")",
       "-- NOTE: UNIQUE constraints are not enforced in Iceberg tables"]
    else if c.type = "CHECK" then
      let nm := match c.name with | some n => " " ++ n | none => ""
      ["-- CHECK" ++ nm ++ ": " ++ fmtOptStr c.check_condition,
       "-- NOTE: CHECK constraints are not enforced in Iceberg tables"]
    else []).flatten

/-- The inline EWI markers of `_convert_column`, in emission order: a
marker for an UNSUPPORTED or LOSSY mapping that carries an issue code,
then FIELDPROC, then GENERATED.  The source appends to `ewi_markers` and
increments `ewi_count` in lockstep, so the returned count is the length
of this list. -/
def col_ewi_markers (cfg : ConverterConfig) (col : Column) : List String :=
  let mapping := map_type col.data_type col.length col.precision col.scale
    col.for_bit_data col.ccsid
  (if cfg.include_ewi ∧ mapping.ewi_code.isSome ∧
      (mapping.status = ConversionStatus.unsupported ∨
       mapping.status = ConversionStatus.lossy) then
    [format_ewi (fmtOptStr mapping.ewi_code) (fmtOptStr mapping.ewi_message)]
   else []) ++
  (match col.fieldproc with
   | some fp =>
     if cfg.include_ewi then
       [format_ewi "SSC-EWI-DB2ICE-0011"
         ("FIELDPROC " ++ fp ++ " - data may be encrypted/transformed")]
     else []
   | none => []) ++
  (match col.generated with
   | some g =>
     if cfg.include_ewi then
       [format_ewi "SSC-EWI-DB2ICE-0014"
         ("GENERATED " ++ g ++ " not supported in Iceberg")]
     else []
   | none => [])

/-- `_convert_column`: the column line (name, mapped type, NOT NULL) with
the marker block appended beneath it, and the marker count. -/
def convert_column (cfg : ConverterConfig) (col : Column) (_tname : String) :
    String × Nat :=
  let mapping := map_type col.data_type col.length col.precision col.scale
    col.for_bit_data col.ccsid
  let parts := ["    " ++ format_identifier col.name, mapping.target_type] ++
    (if ¬ col.nullable then ["NOT NULL"] else [])
  let markers := col_ewi_markers cfg col
  let line := String.intercalate " " parts
  let line2 :=
    if markers = [] then line
    else line ++ "\n" ++ String.intercalate "\n" (markers.map fun m => "        " ++ m)
  (line2, markers.length)

/-- The column block shared by `_convert_table` / `_convert_temp_table`:
each column line gets a trailing comma unless it is the last one and no
primary key follows; returns the lines and the marker total. -/
def column_block (cfg : ConverterConfig) (t : TableDefinition) : List String × Nat :=
  let hasPK := has_pk_constraint t.constraints
  let n := t.columns.length
  let items := t.columns.enum.map fun (i, col) =>
    let (line, cnt) := convert_column cfg col t.full_name
    (if i < n - 1 ∨ hasPK then line ++ "," else line, cnt)
  (items.map fun p => p.1, (items.map fun p => p.2).sum)

/-- The `PRIMARY KEY (...)` line when a PK constraint exists. -/
def pk_lines (t : TableDefinition) : List String :=
  match get_pk_constraint t.constraints with
  | some pk =>
    ["    PRIMARY KEY (" ++
       String.intercalate ", " (pk.columns.map format_identifier) ++ ")"]
  | none => []

/-- `_convert_temp_table`: VOLATILE / GLOBAL TEMPORARY tables become a
`CREATE OR REPLACE TEMPORARY TABLE` with one trailing EWI marker comment
(code SSC-EWI-DB2ICE-0030). -/
def convert_temp_table (cfg : ConverterConfig) (t : TableDefinition) : String × Nat :=
  let original_type := if t.volatile then "VOLATILE" else "GLOBAL TEMPORARY"
  let comments :=
    if cfg.include_comments then
      ["-- Converted from DB2 " ++ original_type ++ " table: " ++ t.full_name,
       "-- Kept as Snowflake TEMPORARY (Iceberg doesn't support temporary tables)",
       "-- Table will remain session-scoped as originally intended"]
    else []
  let (colLines, cnt) := column_block cfg t
  let lines :=
    comments ++
    ["CREATE OR REPLACE TEMPORARY TABLE " ++ format_identifier t.full_name ++ " ("] ++
    colLines ++ pk_lines t ++ [");"]
  if cfg.include_ewi then
    let ewi_msg := format_ewi "SSC-EWI-DB2ICE-0030"
      (original_type ++ " table kept as Snowflake TEMPORARY - Iceberg doesn't support temporary tables")
    (String.intercalate "\n" (lines ++ ["", "-- " ++ ewi_msg]), cnt + 1)
  else
    (String.intercalate "\n" lines, cnt)

/-- `_convert_table`: the regular Iceberg path (the session-scoped kinds
divert to `convert_temp_table`). -/
def convert_table (cfg : ConverterConfig) (t : TableDefinition) : String × Nat :=
  if t.volatile || t.global_temporary then convert_temp_table cfg t
  else
    let comments :=
      if cfg.include_comments then
        ["-- Converted from DB2: " ++ t.full_name] ++
        (match t.editproc with
         | some v => ["-- WARNING: Original table had EDITPROC: " ++ v]
         | none => []) ++
        (match t.validproc with
         | some v => ["-- WARNING: Original table had VALIDPROC: " ++ v]
         | none => [])
      else []
    let (colLines, cnt) := column_block cfg t
    let ccs := generate_constraint_comments t.constraints
    let lines :=
      comments ++
      ["CREATE OR REPLACE ICEBERG TABLE " ++ format_identifier t.full_name ++ " ("] ++
      colLines ++ pk_lines t ++ [")"] ++
      ["CATALOG = 'SNOWFLAKE'",
       "EXTERNAL_VOLUME = '" ++ cfg.external_volume ++ "'",
       "BASE_LOCATION = '" ++ generate_base_location cfg t ++ "'"] ++
      (if cfg.include_comments ∧ ccs ≠ [] then [""] ++ ccs else []) ++
      [";"]
    (String.intercalate "\n" lines, cnt)

/-- `DB2IceConverter.convert`: always assess first; fail the batch only
when no tables parse, otherwise join the per-table outputs with a blank
line. -/
def db2Convert (cfg : ConverterConfig) (ddl : String) : ConversionResult :=
  let assessment := assess ddl
  let tables := db2Parse ddl
  if tables = [] then
    { iceberg_ddl := "", assessment := assessment, success := false
      error_message := some "No valid CREATE TABLE statements found" }
  else
    let rs := tables.map (convert_table cfg)
    { iceberg_ddl := String.intercalate "\n\n" (rs.map fun p => p.1)
      assessment := assessment
      ewi_count := (rs.map fun p => p.2).sum
      tables_converted := tables.length }

/-! ## `db2ice.snowflake_converter` — data model and parser -/

/-- `SnowflakeColumn` dataclass. -/
structure SnowflakeColumn where
  name : String
  data_type : String
  nullable : Bool := true
  default : Option String := none
  identity : Option String := none
  comment : Option String := none
  collate : Option String := none
  masking_policy : Option String := none
  tags : List String := []
deriving DecidableEq

/-- One foreign-key entry of `SnowflakeTable.foreign_keys` (a Python
dict with keys `columns`, `ref_table`, `ref_columns`). -/
structure SfForeignKey where
  columns : List String
  ref_table : String
  ref_columns : List String
deriving DecidableEq

/-- `SnowflakeTable` dataclass. -/
structure SnowflakeTable where
  name : String
  schema : Option String := none
  database : Option String := none
  columns : List SnowflakeColumn := []
  cluster_by : Option (List String) := none
  primary_key : Option (List String) := none
  foreign_keys : List SfForeignKey := []
  unique_keys : List (List String) := []
  comment : Option String := none
  transient : Bool := false
  temporary : Bool := false
  dynamic : Bool := false
  external : Bool := false
  hybrid : Bool := false
  tags : List String := []
  data_retention_days : Option Nat := none
  change_tracking : Bool := false
deriving DecidableEq

/-- `SnowflakeTable.full_name`. -/
def SnowflakeTable.full_name (t : SnowflakeTable) : String :=
  String.intercalate "."
    ((match t.database with | some d => [d] | none => []) ++
     (match t.schema with | some s => [s] | none => []) ++ [t.name])

/-- `ConversionIssue` dataclass (severity is one of the strings
`critical`, `warning`, `info`). -/
structure ConversionIssue where
  code : String
  severity : String
  message : String
  suggestion : Option String := none
  table_name : Option String := none
  column_name : Option String := none
deriving DecidableEq

/-- `SnowflakeToIcebergResult` dataclass. -/
structure SnowflakeToIcebergResult where
  iceberg_ddl : String
  tables_converted : Nat := 0
  ewi_count : Nat := 0
  success : Bool := true
  error_message : Option String := none
  issues : List ConversionIssue := []
deriving DecidableEq

/-- Python truthiness of an optional string (`None` and `""` falsy). -/
def optStrTruthy : Option String → Bool
  | none => false
  | some s => s ≠ ""

/-- Python truthiness of an optional list. -/
def optListTruthy {α : Type} : Option (List α) → Bool
  | none => false
  | some l => !l.isEmpty

/-- `_extract_parenthesized_content` inner scan: plain parenthesis-depth
counting with no string-literal awareness (unlike the DB2 matcher). -/
def sf_ext_go : List Char → Int → List Char → Option (List Char × List Char)
  | [], _, _ => none
  | c :: rest, depth, acc =>
    if c = '(' then sf_ext_go rest (depth + 1) (acc ++ [c])
    else if c = ')' then
      if depth - 1 = 0 then some (acc, rest)
      else sf_ext_go rest (depth - 1) (acc ++ [c])
    else sf_ext_go rest depth (acc ++ [c])

/-- `_extract_parenthesized_content`, returning the content between the
outer parentheses and the suffix after the closing one. -/
def sf_extract_paren (l : List Char) : Option (List Char × List Char) :=
  match l with
  | '(' :: rest => sf_ext_go rest 1 []
  | _ => none

/-- Result of one match of the Snowflake header pattern. -/
structure SfHeader where
  modifier : Option String
  nameTok : List Char
  restAtParen : List Char

/-- One attempt of the header pattern
`CREATE\s+(?:OR\s+REPLACE\s+)?(?:(TRANSIENT|TEMPORARY|DYNAMIC|EXTERNAL|HYBRID)\s+)?`
`TABLE\s+(?:IF\s+NOT\s+EXISTS\s+)?([^\s(]+)\s*\(` at the front of `l`. -/
def sfMatchHeaderAt (l : List Char) : Option SfHeader :=
  match (ciLeads l "CREATE".data).bind wsPlus with
  | none => none
  | some r1 =>
    let r2 :=
      match (matchWords ["OR", "REPLACE"] r1).bind wsPlus with
      | some r => r
      | none => r1
    let (modifier, r3) :
        Option String × List Char :=
      match altKeyword ["TRANSIENT", "TEMPORARY", "DYNAMIC", "EXTERNAL", "HYBRID"] r2 with
      | some (kw, r) =>
        match wsPlus r with
        | some r' => (some kw, r')
        | none => (none, r2)
      | none => (none, r2)
    match (ciLeads r3 "TABLE".data).bind wsPlus with
    | none => none
    | some r4 =>
      let r5 :=
        match (matchWords ["IF", "NOT", "EXISTS"] r4).bind wsPlus with
        | some r => r
        | none => r4
      match takeClass1 (fun c => ¬ isPyWs c ∧ c ≠ '(') r5 with
      | none => none
      | some (tok, r6) =>
        let r7 := wsStar r6
        match r7 with
        | '(' :: _ => some ⟨modifier, tok, r7⟩
        | _ => none

/-- `re.finditer` over the header pattern: find the leftmost match, then
continue scanning from just after its `(` (the match end).  The fuel
argument only bounds the recursion; each iteration strictly shortens the
text, so `length + 1` fuel is never exhausted. -/
def sfScanGo : Nat → List Char → List SfHeader
  | 0, _ => []
  | fuel + 1, l =>
    match searchSuf sfMatchHeaderAt l with
    | none => []
    | some h => h :: sfScanGo fuel (h.restAtParen.drop 1)

/-- First `(` then lazy `(.*?)\)` of `re.search(r'\((.*?)\)', ...)`
without DOTALL: the capture may be empty and may not cross a newline. -/
def firstParenLazy (l : List Char) : Option (List Char) :=
  searchSuf
    (fun s =>
      match s with
      | '(' :: r =>
        let content := r.takeWhile fun c => c ≠ ')' ∧ c ≠ '\n'
        match r.drop content.length with
        | ')' :: _ => some content
        | _ => none
      | _ => none)
    l

/-- `[c.strip().strip('"') for c in group.split(',')]`. -/
def sfCleanCols (content : List Char) : List String :=
  (splitOnCh ',' content).map fun c => ⟨stripCharL '"' (pyStripL c)⟩

/-- One attempt of `KW1\s+KW2\s*\((.*?)\)` (lazy, newline-bounded). -/
def matchKwParenLazyAt (ws : List String) (l : List Char) : Option (List Char) :=
  match matchWords ws l with
  | none => none
  | some r =>
    match wsStar r with
    | '(' :: r2 =>
      let content := r2.takeWhile fun c => c ≠ ')' ∧ c ≠ '\n'
      match r2.drop content.length with
      | ')' :: _ => some content
      | _ => none
    | _ => none

/-- One attempt of
`FOREIGN\s+KEY\s*\((.*?)\)\s*REFERENCES\s+([^\s(]+)\s*\((.*?)\)`. -/
def matchSfFKAt (l : List Char) : Option (List Char × String × List Char) :=
  match matchWords ["FOREIGN", "KEY"] l with
  | none => none
  | some r =>
    match wsStar r with
    | '(' :: r2 =>
      let cols := r2.takeWhile fun c => c ≠ ')' ∧ c ≠ '\n'
      match r2.drop cols.length with
      | ')' :: r3 =>
        match (ciLeads (wsStar r3) "REFERENCES".data).bind wsPlus with
        | none => none
        | some r4 =>
          match takeClass1 (fun c => ¬ isPyWs c ∧ c ≠ '(') r4 with
          | none => none
          | some (tbl, r5) =>
            match wsStar r5 with
            | '(' :: r6 =>
              let refCols := r6.takeWhile fun c => c ≠ ')' ∧ c ≠ '\n'
              match r6.drop refCols.length with
              | ')' :: _ => some (cols, ⟨tbl⟩, refCols)
              | _ => none
            | _ => none
      | _ => none
    | _ => none

/-- The Snowflake column type match
`re.match(r'(\w+(?:\s*\([^)]+\))?)', rest)`: word characters plus an
optional parenthesized argument; returns the raw matched text and the
rest. -/
def sfTypeMatch (rest : List Char) : Option (List Char × List Char) :=
  match takeClass1 isWordCh rest with
  | none => none
  | some (tok, r1) =>
    let attempt : Option (List Char) :=
      match chomp '(' (wsStar r1) with
      | none => none
      | some r3 =>
        match takeClass1 (fun c => c ≠ ')') r3 with
        | none => none
        | some (_, r4) => chomp ')' r4
    match attempt with
    | some r5 => some (rest.take (rest.length - r5.length), r5)
    | none => some (tok, r1)

/-- One attempt of `DEFAULT\s+([^\s,]+(?:\([^)]*\))?)` (Snowflake
variant). -/
def matchSfDefaultAt (l : List Char) : Option String :=
  match (ciLeads l "DEFAULT".data).bind wsPlus with
  | none => none
  | some r1 =>
    match takeClass1 (fun c => ¬ isPyWs c ∧ c ≠ ',') r1 with
    | none => none
    | some (tok, r2) =>
      let extra : Option (List Char) :=
        match chomp '(' r2 with
        | none => none
        | some r3 =>
          let content := r3.takeWhile fun c => c ≠ ')'
          chomp ')' (r3.drop content.length)
      match extra with
      | some r4 => some ⟨tok ++ r2.take (r2.length - r4.length)⟩
      | none => some ⟨tok⟩

/-- One attempt of `(?:IDENTITY|AUTOINCREMENT)\s*(?:\(([^)]+)\))?`,
returning the captured seed/step text when present. -/
def matchIdentityAt (l : List Char) : Option (Option String) :=
  match altKeyword ["IDENTITY", "AUTOINCREMENT"] l with
  | none => none
  | some (_, r1) =>
    let captured : Option String :=
      match chomp '(' (wsStar r1) with
      | none => none
      | some r2 =>
        match takeClass1 (fun c => c ≠ ')') r2 with
        | none => none
        | some (content, r3) =>
          match chomp ')' r3 with
          | some _ => some ⟨content⟩
          | none => none
    some captured

/-- One attempt of `COMMENT\s+'([^']*)'`. -/
def matchSfCommentAt (l : List Char) : Option String :=
  match (ciLeads l "COMMENT".data).bind wsPlus with
  | none => none
  | some r1 =>
    match chomp squoteCh r1 with
    | none => none
    | some r2 =>
      let content := r2.takeWhile fun c => c ≠ squoteCh
      match chomp squoteCh (r2.drop content.length) with
      | some _ => some ⟨content⟩
      | none => none

/-- One attempt of `COLLATE\s+([^\s,]+)`. -/
def matchCollateAt (l : List Char) : Option String :=
  match (ciLeads l "COLLATE".data).bind wsPlus with
  | none => none
  | some r1 =>
    match takeClass1 (fun c => ¬ isPyWs c ∧ c ≠ ',') r1 with
    | some (tok, _) => some ⟨tok⟩
    | none => none

/-- One attempt of `WITH\s+MASKING\s+POLICY\s+([^\s,]+)`. -/
def matchMaskingAt (l : List Char) : Option String :=
  match matchWords ["WITH", "MASKING", "POLICY"] l with
  | none => none
  | some r1 =>
    match wsPlus r1 with
    | none => none
    | some r2 =>
      match takeClass1 (fun c => ¬ isPyWs c ∧ c ≠ ',') r2 with
      | some (tok, _) => some ⟨tok⟩
      | none => none

/-- `SnowflakeParser._parse_column`: quoted or bare name, the type
match, then the option scans. -/
def sf_parse_column (col_def : String) : Option SnowflakeColumn :=
  let cd := col_def.data
  let nameRest : Option (String × List Char) :=
    match cd with
    | '"' :: r =>
      let nm := r.takeWhile fun c => c ≠ '"'
      if nm.isEmpty then none
      else
        match r.drop nm.length with
        | '"' :: r2 =>
          match wsPlus r2 with
          | some _ =>
            let afterWs := r2.dropWhile isPyWs
            some (⟨nm⟩, afterWs.takeWhile fun c => c ≠ '\n')
          | none => none
        | _ => none
    | _ =>
      let lead := cd.dropWhile isPyWs
      let tok := lead.takeWhile fun c => ¬ isPyWs c
      if tok.isEmpty then none
      else
        let rest := (lead.drop tok.length).dropWhile isPyWs
        if rest.isEmpty then none else some (⟨tok⟩, rest)
  match nameRest with
  | none => none
  | some (name0, rest) =>
    match sfTypeMatch rest with
    | none => none
    | some (typRaw, after) =>
      let rest_of_def := pyStripL after
      let upperRest := rest_of_def.map upCh
      some
        { name := ⟨stripCharL '"' name0.data⟩
          data_type := upStr ⟨typRaw⟩
          nullable := ¬ hasSub upperRest "NOT NULL".data
          default := searchSuf matchSfDefaultAt rest_of_def
          identity :=
            if hasSub upperRest "IDENTITY".data || hasSub upperRest "AUTOINCREMENT".data then
              match searchSuf matchIdentityAt rest_of_def with
              | some (some captured) => some captured
              | some none => some "1,1"
              | none => some "1,1"
            else none
          comment := searchSuf matchSfCommentAt rest_of_def
          collate := searchSuf matchCollateAt rest_of_def
          masking_policy := searchSuf matchMaskingAt rest_of_def }

/-- `_split_definitions` (parenthesis depth only, no string
awareness). -/
def sf_split_go : List Char → Int → List Char → List (List Char) → List (List Char)
  | [], _, cur, parts => if cur = [] then parts else parts ++ [cur]
  | c :: rest, depth, cur, parts =>
    if c = '(' then sf_split_go rest (depth + 1) (cur ++ [c]) parts
    else if c = ')' then sf_split_go rest (depth - 1) (cur ++ [c]) parts
    else if c = ',' ∧ depth = 0 then sf_split_go rest depth [] (parts ++ [cur])
    else sf_split_go rest depth (cur ++ [c]) parts

/-- `_split_definitions`. -/
def sf_split_defs (l : List Char) : List (List Char) := sf_split_go l 0 [] []

/-- `SnowflakeParser._parse_columns_and_constraints`: classify each
top-level chunk by its leading keyword (PRIMARY KEY / FOREIGN KEY /
UNIQUE / CONSTRAINT), otherwise parse it as a column. -/
def sf_parse_cols_constraints (t0 : SnowflakeTable) (column_defs : List Char) :
    SnowflakeTable :=
  (sf_split_defs column_defs).foldl
    (fun t part0 =>
      let part := pyStripL part0
      if part = [] then t
      else
        let u : List Char := part.map upCh
        let ps : String := ⟨part⟩
        if leadsWith u "PRIMARY KEY".data then
          match firstParenLazy part with
          | some content => { t with primary_key := some (sfCleanCols content) }
          | none => t
        else if leadsWith u "FOREIGN KEY".data then
          match searchSuf matchSfFKAt part with
          | some (cols, tbl, refCols) =>
            { t with foreign_keys := t.foreign_keys ++
                [{ columns := sfCleanCols cols, ref_table := pyStrip tbl
                   ref_columns := sfCleanCols refCols }] }
          | none => t
        else if leadsWith u "UNIQUE".data then
          match firstParenLazy part with
          | some content => { t with unique_keys := t.unique_keys ++ [sfCleanCols content] }
          | none => t
        else if leadsWith u "CONSTRAINT".data then
          if hasSub u "PRIMARY KEY".data then
            match searchSuf (matchKwParenLazyAt ["PRIMARY", "KEY"]) part with
            | some content => { t with primary_key := some (sfCleanCols content) }
            | none => t
          else if hasSub u "FOREIGN KEY".data then
            match searchSuf matchSfFKAt part with
            | some (cols, tbl, refCols) =>
              { t with foreign_keys := t.foreign_keys ++
                  [{ columns := sfCleanCols cols, ref_table := pyStrip tbl
                     ref_columns := sfCleanCols refCols }] }
            | none => t
          else if hasSub u "UNIQUE".data then
            match searchSuf (matchKwParenLazyAt ["UNIQUE"]) part with
            | some content => { t with unique_keys := t.unique_keys ++ [sfCleanCols content] }
            | none => t
          else t
        else
          match sf_parse_column ps with
          | some col => { t with columns := t.columns ++ [col] }
          | none => t)
    t0

/-- One attempt of `DATA_RETENTION_TIME_IN_DAYS\s*=\s*(\d+)`. -/
def matchRetentionAt (l : List Char) : Option Nat :=
  match ciLeads l "DATA_RETENTION_TIME_IN_DAYS".data with
  | none => none
  | some r1 =>
    match chomp '=' (wsStar r1) with
    | none => none
    | some r2 =>
      match digits1 (wsStar r2) with
      | some (n, _) => some n
      | none => none

/-- One attempt of `COMMENT\s*=\s*'([^']*)'`. -/
def matchTableCommentAt (l : List Char) : Option String :=
  match ciLeads l "COMMENT".data with
  | none => none
  | some r1 =>
    match chomp '=' (wsStar r1) with
    | none => none
    | some r2 =>
      match chomp squoteCh (wsStar r2) with
      | none => none
      | some r3 =>
        let content := r3.takeWhile fun c => c ≠ squoteCh
        match chomp squoteCh (r3.drop content.length) with
        | some _ => some ⟨content⟩
        | none => none

/-- One attempt of `CHANGE_TRACKING\s*=\s*(TRUE|FALSE)`. -/
def matchChangeTrackingAt (l : List Char) : Option String :=
  match ciLeads l "CHANGE_TRACKING".data with
  | none => none
  | some r1 =>
    match chomp '=' (wsStar r1) with
    | none => none
    | some r2 =>
      (altKeyword ["TRUE", "FALSE"] (wsStar r2)).map fun p => p.1

/-- `SnowflakeParser._parse_table_options`. -/
def sf_parse_table_options (t0 : SnowflakeTable) (options : List Char) :
    SnowflakeTable :=
  if options = [] then t0
  else
    let u : List Char := options.map upCh
    let t1 :=
      match searchSuf (matchKwParenLazyAt ["CLUSTER", "BY"]) options with
      | some content =>
        { t0 with cluster_by := some ((splitOnCh ',' content).map fun c =>
            (⟨stripCharL '"' (pyStripL c)⟩ : String)) }
      | none => t0
    let t2 :=
      match searchSuf matchTableCommentAt options with
      | some c => { t1 with comment := some c }
      | none => t1
    let t3 :=
      match searchSuf matchRetentionAt options with
      | some n => { t2 with data_retention_days := some n }
      | none => t2
    if hasSub u "CHANGE_TRACKING".data then
      match searchSuf matchChangeTrackingAt options with
      | some v => { t3 with change_tracking := v = "TRUE" }
      | none => t3
    else t3

/-- `SnowflakeParser._parse_table`: split the dotted name (quotes
removed, parts assigned right to left), set the kind flag from the
modifier, then parse columns/constraints and options. -/
def sf_parse_table (full_name : String) (column_defs table_options : List Char)
    (modifier : Option String) : SnowflakeTable :=
  let parts := (splitOnCh '.' (full_name.data.filter fun c => c ≠ '"')).map
    fun p => (⟨p⟩ : String)
  let rv := parts.reverse
  let modU := modifier.map upStr
  let t0 : SnowflakeTable :=
    { name := (rv.head?).getD ""
      schema := rv.drop 1 |>.head?
      database := rv.drop 2 |>.head?
      transient := modU = some "TRANSIENT"
      temporary := modU = some "TEMPORARY"
      dynamic := modU = some "DYNAMIC"
      external := modU = some "EXTERNAL"
      hybrid := modU = some "HYBRID" }
  let t1 := sf_parse_cols_constraints t0 column_defs
  sf_parse_table_options t1 table_options

/-- `SnowflakeParser.parse`: iterate the header matches, extract each
column list by parenthesis matching, take the options up to the next
`;`, and build the tables. -/
def sfParse (ddl : String) : List SnowflakeTable :=
  (sfScanGo (ddl.data.length + 1) ddl.data).filterMap fun h =>
    match sf_extract_paren h.restAtParen with
    | none => none
    | some (column_defs, afterClose) =>
      let rest := pyStripL afterClose
      let table_options := rest.takeWhile fun c => c ≠ ';'
      some (sf_parse_table ⟨h.nameTok⟩ column_defs table_options h.modifier)

/-! ## `SnowflakeToIcebergConverter` -/

/-- `TYPE_CONVERSIONS`: semi-structured and spatial types, not supported
in Iceberg; entries are (new type, EWI code, message). -/
def sfTypeConversions : List (String × String × String × String) :=
  [("VARIANT", "VARCHAR", "SSC-EWI-SF2ICE-0001",
    "VARIANT not supported in Iceberg - converted to VARCHAR. Parse JSON at query time or use structured types"),
   ("OBJECT", "VARCHAR", "SSC-EWI-SF2ICE-0002",
    "Semi-structured OBJECT not supported in Iceberg - converted to VARCHAR. Use structured OBJECT with defined schema instead"),
   ("ARRAY", "VARCHAR", "SSC-EWI-SF2ICE-0003",
    "Semi-structured ARRAY not supported in Iceberg - converted to VARCHAR. Use structured ARRAY with defined element type instead"),
   ("GEOGRAPHY", "VARCHAR", "SSC-EWI-SF2ICE-0004",
    "GEOGRAPHY not supported in Iceberg - converted to VARCHAR. Store as WKT/GeoJSON string"),
   ("GEOMETRY", "VARCHAR", "SSC-EWI-SF2ICE-0005",
    "GEOMETRY not supported in Iceberg - converted to VARCHAR. Store as WKT/GeoJSON string")]

/-- `TIMESTAMP_TYPES`: temporal types forced to the precision-6 variant;
entries are (new type, EWI code, message).  `TIMESTAMP_TZ` is the one
entry whose target type family changes (to `TIMESTAMP_LTZ`). -/
def sfTimestampTypes : List (String × String × String × String) :=
  [("TIME", "TIME(6)", "SSC-EWI-SF2ICE-0006",
    "TIME precision adjusted to 6 (microseconds) for Iceberg compatibility"),
   ("TIMESTAMP", "TIMESTAMP_NTZ(6)", "SSC-EWI-SF2ICE-0007",
    "TIMESTAMP precision adjusted to 6 (microseconds) for Iceberg compatibility"),
   ("TIMESTAMP_NTZ", "TIMESTAMP_NTZ(6)", "SSC-EWI-SF2ICE-0007",
    "TIMESTAMP_NTZ precision adjusted to 6 for Iceberg compatibility"),
   ("TIMESTAMP_LTZ", "TIMESTAMP_LTZ(6)", "SSC-EWI-SF2ICE-0008",
    "TIMESTAMP_LTZ precision adjusted to 6 for Iceberg compatibility"),
   ("TIMESTAMP_TZ", "TIMESTAMP_LTZ(6)", "SSC-EWI-SF2ICE-0009",
    "TIMESTAMP_TZ converted to TIMESTAMP_LTZ(6) for Iceberg compatibility"),
   ("DATETIME", "TIMESTAMP_NTZ(6)", "SSC-EWI-SF2ICE-0007",
    "DATETIME converted to TIMESTAMP_NTZ(6) for Iceberg compatibility")]

/-- Association-list lookup for the two type tables. -/
def sfLookup (tbl : List (String × String × String × String)) (k : String) :
    Option (String × String × String) :=
  match tbl with
  | [] => none
  | (k', a, b, c) :: t => if k' = k then some (a, b, c) else sfLookup t k

/-- `re.match(r'(\w+)', data_type).group(1).upper() if data_type else
'VARCHAR'` (the parser only produces types beginning with a word
character, so the leading word run is the whole base type). -/
def sf_base_type (data_type : String) : String :=
  if data_type = "" then "VARCHAR"
  else upStr ⟨data_type.data.takeWhile isWordCh⟩

/-- `re.search(r'\((\d+)\)', data_type)`: the declared precision, when
explicitly present. -/
def sf_precision_in (data_type : String) : Option Nat :=
  searchSuf
    (fun l =>
      match l with
      | '(' :: r =>
        match digits1 r with
        | some (n, r2) =>
          match chomp ')' r2 with
          | some _ => some n
          | none => none
        | none => none
      | _ => none)
    data_type.data

/-- The `data_type` value computed by
`SnowflakeToIcebergConverter._convert_column`: forced by the
TYPE_CONVERSIONS table, else by the TIMESTAMP_TYPES table (always, even
when no issue is recorded), else unchanged. -/
def sf_col_target_type (col : SnowflakeColumn) : String :=
  let base := sf_base_type col.data_type
  match sfLookup sfTypeConversions base with
  | some (newT, _, _) => newT
  | none =>
    match sfLookup sfTimestampTypes base with
    | some (newT, _, _) => newT
    | none => col.data_type

/-- `SnowflakeToIcebergConverter._convert_column`: the converted column
line, its EWI-marker count, and the recorded issues.  The source assigns
the new `data_type` and emits the marker/issue in the same dispatch
branch; the embedding factors the type assignment into
`sf_col_target_type` (same dispatch, type component only).  The source
appends each marker together with its issue and a count increment, so
the count is the marker-list length. -/
def sf_convert_column (cfg : ConverterConfig) (col : SnowflakeColumn)
    (tname : String) : String × Nat × List ConversionIssue :=
  let base := sf_base_type col.data_type
  let data_type := sf_col_target_type col
  let (m1, i1) : List String × List ConversionIssue :=
    match sfLookup sfTypeConversions base with
    | some (_, code, msg) =>
      if cfg.include_ewi then
        ([format_ewi code msg],
         [{ code := code, severity := "critical", message := msg
            table_name := some tname, column_name := some col.name }])
      else ([], [])
    | none =>
      match sfLookup sfTimestampTypes base with
      | some (_, code, msg) =>
        match sf_precision_in col.data_type with
        | some p =>
          if p ≠ 6 ∧ cfg.include_ewi then
            ([format_ewi code msg],
             [{ code := code, severity := "info", message := msg
                table_name := some tname, column_name := some col.name }])
          else ([], [])
        | none => ([], [])
      | none => ([], [])
  let (m2, i2) : List String × List ConversionIssue :=
    if optStrTruthy col.identity ∧ cfg.include_ewi then
      let msg := "IDENTITY/AUTOINCREMENT not supported in Iceberg tables"
      ([format_ewi "SSC-EWI-SF2ICE-0015" msg],
       [{ code := "SSC-EWI-SF2ICE-0015", severity := "warning", message := msg
          suggestion := some "Use application-generated IDs or sequences"
          table_name := some tname, column_name := some col.name }])
    else ([], [])
  let (m3, i3) : List String × List ConversionIssue :=
    match col.masking_policy with
    | some mp =>
      if mp ≠ "" ∧ cfg.include_ewi then
        let msg := "Masking policies need to be re-applied after conversion"
        ([format_ewi "SSC-EWI-SF2ICE-0016" (msg ++ ": " ++ mp)],
         [{ code := "SSC-EWI-SF2ICE-0016", severity := "warning", message := msg
            suggestion := some ("Re-apply masking policy " ++ mp ++ " after conversion")
            table_name := some tname, column_name := some col.name }])
      else ([], [])
    | none => ([], [])
  let (m4, i4) : List String × List ConversionIssue :=
    match col.collate with
    | some cl =>
      if cl ≠ "" ∧ cfg.include_ewi then
        let msg := "COLLATE clause not supported in Iceberg tables"
        ([format_ewi "SSC-EWI-SF2ICE-0017" (msg ++ ": " ++ cl)],
         [{ code := "SSC-EWI-SF2ICE-0017", severity := "info", message := msg
            table_name := some tname, column_name := some col.name }])
      else ([], [])
    | none => ([], [])
  let markers := m1 ++ m2 ++ m3 ++ m4
  let parts := ["    " ++ format_identifier col.name, data_type] ++
    (if ¬ col.nullable then ["NOT NULL"] else [])
  let line := String.intercalate " " parts
  let line2 :=
    if markers = [] then line
    else line ++ "\n" ++ String.intercalate "\n" (markers.map fun m => "        " ++ m)
  (line2, markers.length, i1 ++ i2 ++ i3 ++ i4)

/-- `_format_standard_column` (TEMPORARY/TRANSIENT preservation path:
no type conversion). -/
def sf_format_standard_column (col : SnowflakeColumn) : String :=
  String.intercalate " "
    (["    " ++ format_identifier col.name, col.data_type] ++
     (if ¬ col.nullable then ["NOT NULL"] else []) ++
     (if optStrTruthy col.identity then ["AUTOINCREMENT"] else []) ++
     (match col.default with
      | some d => if d ≠ "" then ["DEFAULT " ++ d] else []
      | none => []))

/-- `_format_name` (table names are upper-cased without quoting in the
Snowflake converter). -/
def sf_format_name (s : String) : String := upStr s

/-- `_generate_base_location` for Snowflake tables. -/
def sf_generate_base_location (cfg : ConverterConfig) (t : SnowflakeTable) : String :=
  let schema := t.schema.getD "default"
  replaceSub (replaceSub cfg.base_location_pattern "{schema}" (lowStr schema))
    "{table}" (lowStr t.name)

/-- Python truthiness of `table.primary_key` (a `None` or empty list is
falsy). -/
def sfPkTruthy (t : SnowflakeTable) : Bool := optListTruthy t.primary_key

/-- The column block of the preserved and converted table paths: comma
after each column except the last one when no primary-key line
follows. -/
def sf_column_block (cfg : ConverterConfig) (t : SnowflakeTable) :
    List String × Nat × List ConversionIssue :=
  let n := t.columns.length
  let items := t.columns.enum.map fun (i, col) =>
    let (line, cnt, iss) := sf_convert_column cfg col t.full_name
    (if i < n - 1 ∨ sfPkTruthy t then line ++ "," else line, cnt, iss)
  (items.map fun p => p.1, (items.map fun p => p.2.1).sum,
   (items.map fun p => p.2.2).flatten)

/-- The `PRIMARY KEY (...)` line of the Snowflake paths. -/
def sf_pk_lines (t : SnowflakeTable) : List String :=
  match t.primary_key with
  | some pk =>
    if pk = [] then []
    else
      ["    PRIMARY KEY (" ++
         String.intercalate ", " (pk.map format_identifier) ++ ")"]
  | none => []

/-- `_keep_as_standard_table`: TEMPORARY/TRANSIENT tables are re-emitted
as Snowflake Standard DDL with zero EWI markers and one INFO issue. -/
def sf_keep_standard (cfg : ConverterConfig) (t : SnowflakeTable)
    (ttype : String) : String × Nat × List ConversionIssue :=
  let (reason_main, reason_detail, ewi_code, suggestion) :
      String × String × String × String :=
    if ttype = "TRANSIENT" then
      ("Iceberg tables always have durability (no transient option)",
       "The table will remain without Fail-safe as originally intended",
       "SSC-EWI-SF2ICE-0021",
       "Table will remain transient (no Fail-safe). Consider if transient behavior is needed or if Iceberg durability is acceptable.")
    else
      ("Iceberg does not support temporary tables",
       "The table will remain session-scoped as originally intended",
       "SSC-EWI-SF2ICE-0020",
       "Table will remain session-scoped. Consider if temporary table is needed in target architecture.")
  let comments :=
    if cfg.include_comments then
      ["-- " ++ ttype ++ " table kept as Snowflake Standard (not converted to Iceberg)",
       "-- Reason: " ++ reason_main,
       "-- " ++ reason_detail]
    else []
  let n := t.columns.length
  let colLines := t.columns.enum.map fun (i, col) =>
    let line := sf_format_standard_column col
    if i < n - 1 ∨ sfPkTruthy t then line ++ "," else line
  let lines :=
    comments ++
    ["CREATE OR REPLACE " ++ ttype ++ " TABLE " ++ sf_format_name t.full_name ++ " ("] ++
    colLines ++ sf_pk_lines t ++ [");"]
  (String.intercalate "\n" lines, 0,
   [{ code := ewi_code, severity := "info"
      message := ttype ++ " table kept as Snowflake Standard - " ++ reason_main
      suggestion := some suggestion
      table_name := some t.full_name }])

/-- The skip codes of `_skip_unsupported_table`. -/
def sfSkipCode (ttype : String) : String :=
  if ttype = "DYNAMIC" then "SSC-EWI-SF2ICE-0022"
  else if ttype = "EXTERNAL" then "SSC-EWI-SF2ICE-0023"
  else if ttype = "HYBRID" then "SSC-EWI-SF2ICE-0024"
  else "SSC-EWI-SF2ICE-0025"

/-- The comment lines emitted by `_skip_unsupported_table` (empty when
comments are disabled). -/
def sfSkipLines (cfg : ConverterConfig) (t : SnowflakeTable)
    (ttype reason : String) : List String :=
  if cfg.include_comments then
    ["-- !!!! " ++ ttype ++ " TABLE SKIPPED - Cannot convert to Iceberg !!!!",
     "-- Table: " ++ t.full_name,
     "-- Reason: " ++ reason,
     "-- Action required: Review and handle this table manually"]
  else []

/-- `_skip_unsupported_table`: DYNAMIC/EXTERNAL/HYBRID tables produce
only explanatory comments, one CRITICAL issue, and count as exactly one
EWI. -/
def sf_skip_table (cfg : ConverterConfig) (t : SnowflakeTable)
    (ttype reason : String) : String × Nat × List ConversionIssue :=
  (String.intercalate "\n" (sfSkipLines cfg t ttype reason), 1,
   [{ code := sfSkipCode ttype, severity := "critical"
      message := ttype ++ " table cannot be converted to Iceberg: " ++ t.full_name
      suggestion := some reason
      table_name := some t.full_name }])

/-- The skip reason for DYNAMIC tables (source string constant). -/
def SF_DYNAMIC_REASON : String :=
  "Dynamic tables auto-refresh from a query and cannot be converted to Iceberg. Consider creating the underlying source tables as Iceberg instead."

/-- The skip reason for EXTERNAL tables. -/
def SF_EXTERNAL_REASON : String :=
  "External tables reference data in external stages. Consider using Iceberg tables with the same external volume instead."

/-- The skip reason for HYBRID tables. -/
def SF_HYBRID_REASON : String :=
  "Hybrid tables are optimized for HTAP workloads. Iceberg tables have different performance characteristics for mixed workloads."

/-- `SnowflakeToIcebergConverter._convert_table`: the kind dispatch
(TEMPORARY, TRANSIENT, DYNAMIC, EXTERNAL, HYBRID, regular) followed by
the regular Iceberg conversion path. -/
def sf_convert_table (cfg : ConverterConfig) (t : SnowflakeTable) :
    String × Nat × List ConversionIssue :=
  if t.temporary then sf_keep_standard cfg t "TEMPORARY"
  else if t.transient then sf_keep_standard cfg t "TRANSIENT"
  else if t.dynamic then sf_skip_table cfg t "DYNAMIC" SF_DYNAMIC_REASON
  else if t.external then sf_skip_table cfg t "EXTERNAL" SF_EXTERNAL_REASON
  else if t.hybrid then sf_skip_table cfg t "HYBRID" SF_HYBRID_REASON
  else
    let headerComments :=
      if cfg.include_comments then
        ["-- Converted from Snowflake Standard: " ++ t.full_name]
      else []
    let (colLines, cnt, colIssues) := sf_column_block cfg t
    let (tailComments, clusterIssues) : List String × List ConversionIssue :=
      if cfg.include_comments then
        let (c1, i1) : List String × List ConversionIssue :=
          match t.cluster_by with
          | some cb =>
            if cb ≠ [] then
              (["-- Original CLUSTER BY: (" ++ String.intercalate ", " cb ++ ")",
                "-- NOTE: Iceberg uses automatic optimization instead of explicit clustering"],
               if cfg.include_ewi then
                 [{ code := "SSC-EWI-SF2ICE-0012", severity := "info"
                    message := "CLUSTER BY not directly supported - Iceberg uses different optimization"
                    suggestion := some "Consider Iceberg table optimization strategies"
                    table_name := some t.full_name }]
               else [])
            else ([], [])
          | none => ([], [])
        let c2 :=
          match t.data_retention_days with
          | some d =>
            if d ≠ 0 then ["-- Original DATA_RETENTION_TIME_IN_DAYS: " ++ fmtNat d]
            else []
          | none => []
        let c3 := if t.change_tracking then ["-- Original CHANGE_TRACKING: TRUE"] else []
        let c4 := (t.foreign_keys.map fun fk =>
          ["-- FOREIGN KEY (" ++ String.intercalate ", " fk.columns ++ ") REFERENCES " ++
             fk.ref_table ++ "(" ++ String.intercalate ", " fk.ref_columns ++ ")",
           "-- NOTE: Foreign keys are not enforced in Iceberg tables"]).flatten
        let c5 := (t.unique_keys.map fun uk =>
          ["-- UNIQUE (" ++ String.intercalate ", " uk ++ ")",
           "-- NOTE: UNIQUE constraints are not enforced in Iceberg tables"]).flatten
        let c6 :=
          match t.comment with
          | some c => if c ≠ "" then ["-- Table comment: " ++ c] else []
          | none => []
        let comm := c1 ++ c2 ++ c3 ++ c4 ++ c5 ++ c6
        (if comm = [] then [] else [""] ++ comm, i1)
      else ([], [])
    let lines :=
      headerComments ++
      ["CREATE OR REPLACE ICEBERG TABLE " ++ sf_format_name t.full_name ++ " ("] ++
      colLines ++ sf_pk_lines t ++ [")"] ++
      ["CATALOG = 'SNOWFLAKE'",
       "EXTERNAL_VOLUME = '" ++ cfg.external_volume ++ "'",
       "BASE_LOCATION = '" ++ sf_generate_base_location cfg t ++ "'"] ++
      tailComments ++ [";"]
    (String.intercalate "\n" lines, cnt, colIssues ++ clusterIssues)

/-- `SnowflakeToIcebergConverter.convert`. -/
def sfConvert (cfg : ConverterConfig) (ddl : String) : SnowflakeToIcebergResult :=
  let tables := sfParse ddl
  if tables = [] then
    { iceberg_ddl := "", success := false
      error_message := some "No valid CREATE TABLE statements found" }
  else
    let rs := tables.map (sf_convert_table cfg)
    { iceberg_ddl := String.intercalate "\n\n" (rs.map fun p => p.1)
      tables_converted := tables.length
      ewi_count := (rs.map fun p => p.2.1).sum
      issues := (rs.map fun p => p.2.2).flatten }

/-! ## Auxiliary definitions for the statements of the properties -/

/-- Abstract run of the splitter over one statement, tracking only
(string flag, depth, previous-char-was-backslash): returns `true` when
no character fires the terminator branch and the scan ends outside a
string at depth 0 — i.e. the statement passes through `_split_statements`
as one un-split unit. -/
def gs_go : List Char → Bool → Int → Bool → Bool
  | [], inStr, depth, _ => !inStr && depth == 0
  | c :: rest, inStr, depth, prevB =>
    let inStr' := sp_instr c inStr prevB
    let depth' := sp_depth c inStr' depth
    if sp_isTerm c inStr' depth' then false
    else gs_go rest inStr' depth' (c = bslashCh)

/-- A single statement as understood by the splitter: no top-level
terminator characters, balanced parentheses, and closed string
literals. -/
def goodStmt (s : String) : Bool := gs_go s.data false 0 false

/-- `N` semicolon-terminated statements concatenated:
`s₁ ++ ";" ++ s₂ ++ ";" ++ ... ++ sN ++ ";"`. -/
def mkBatch (ss : List String) : String :=
  ⟨(ss.map fun s => s.data ++ [';']).flatten⟩

/-- The leading `["\w]+` identifier token of a (stripped) column
definition, as consumed by `_parse_column`. -/
def nameTokenOf (s : String) : List Char := s.data.takeWhile isIdentCh

/-! ## Theorems -/

/-- C1: on the single-statement input
`CREATE TABLE S.T (A INTEGER NOT NULL, B XML, PRIMARY KEY (A));`,
`Assessor.assess` returns a report with one table assessment whose only
issue is the CRITICAL XML issue (code SSC-EWI-DB2ICE-0005 on column B),
with `can_auto_convert = false`, `readiness_score = 75` and readiness
level YELLOW. -/
theorem c1_scenario1_assessment :
    ((assess "CREATE TABLE S.T (A INTEGER NOT NULL, B XML, PRIMARY KEY (A));").table_assessments.map
        fun ta =>
          (ta.issues.map fun i => (i.code, i.severity, i.column_name),
           (ta.issues.filter fun i => i.severity = IssueSeverity.critical).length,
           ta.can_auto_convert, ta.readiness_score, ta.readiness_level)) =
      [([("SSC-EWI-DB2ICE-0005", IssueSeverity.critical, some "B")], 1, false,
        (75 : ℚ), ReadinessLevel.yellow)] := by
  rfl

/-- `map_type` on TIMESTAMP dispatches to `map_timestamp` (shared by the
C3 theorems). -/
theorem map_type_timestamp_eq (length precision scale : Option Nat) (cc : Option String) :
    map_type "TIMESTAMP" length precision scale false cc = map_timestamp precision := rfl

/-- C3 counterexample: for the explicitly supplied precision 0 the claim
demands COMPATIBLE with the timestamp-precision issue code, but Python
truthiness makes `map_type('TIMESTAMP', precision=0)` treat 0 like an
unspecified precision: status DIRECT, no issue code. -/
theorem c3_counterexample :
    (map_type "TIMESTAMP" none (some 0) none false none).status = ConversionStatus.direct ∧
    (map_type "TIMESTAMP" none (some 0) none false none).ewi_code = none ∧
    (map_type "TIMESTAMP" none (some 0) none false none).target_type = "TIMESTAMP_NTZ(6)" :=
  ⟨rfl, rfl, rfl⟩

/-- C3 (amended): every TIMESTAMP mapping targets TIMESTAMP_NTZ(6);
an unspecified precision, and the explicitly supplied precisions 0 and 6
(0 being treated as unspecified by Python truthiness), give DIRECT with
no issue code; every other explicitly supplied precision gives
COMPATIBLE with code SSC-EWI-DB2ICE-0004. -/
theorem c3_timestamp_amended (length scale : Option Nat) (cc : Option String) :
    (∀ precision : Option Nat,
        (map_type "TIMESTAMP" length precision scale false cc).target_type = "TIMESTAMP_NTZ(6)") ∧
    ((map_type "TIMESTAMP" length none scale false cc).status = ConversionStatus.direct ∧
      (map_type "TIMESTAMP" length none scale false cc).ewi_code = none) ∧
    (∀ p : Nat, p = 0 ∨ p = 6 →
        (map_type "TIMESTAMP" length (some p) scale false cc).status = ConversionStatus.direct ∧
        (map_type "TIMESTAMP" length (some p) scale false cc).ewi_code = none) ∧
    (∀ p : Nat, p ≠ 0 → p ≠ 6 →
        (map_type "TIMESTAMP" length (some p) scale false cc).status = ConversionStatus.compatible ∧
        (map_type "TIMESTAMP" length (some p) scale false cc).ewi_code = some "SSC-EWI-DB2ICE-0004") := by
  refine ⟨fun precision => ?_, ⟨rfl, rfl⟩, fun p hp => ?_, fun p h0 h6 => ?_⟩
  · rw [map_type_timestamp_eq]
    cases precision with
    | none => rfl
    | some p =>
      by_cases h0 : p = 0
      · subst h0; rfl
      · by_cases h6 : p = 6
        · subst h6; rfl
        · simp [map_timestamp, optTruthy, h0, h6]
  · rcases hp with h | h <;> subst h <;> exact ⟨rfl, rfl⟩
  · rw [map_type_timestamp_eq]
    simp [map_timestamp, optTruthy, h0, h6]

/-- C3 witness: the amended theorem applied at precision 3 and at an
unspecified precision. -/
theorem c3_timestamp_amended_witness :
    (map_type "TIMESTAMP" none (some 3) none false none).target_type = "TIMESTAMP_NTZ(6)" ∧
    (map_type "TIMESTAMP" none (some 3) none false none).status = ConversionStatus.compatible ∧
    (map_type "TIMESTAMP" none (some 3) none false none).ewi_code = some "SSC-EWI-DB2ICE-0004" ∧
    (map_type "TIMESTAMP" none none none false none).status = ConversionStatus.direct :=
  ⟨(c3_timestamp_amended none none none).1 (some 3),
   ((c3_timestamp_amended none none none).2.2.2 3 (by decide) (by decide)).1,
   ((c3_timestamp_amended none none none).2.2.2 3 (by decide) (by decide)).2,
   (c3_timestamp_amended none none none).2.1.1⟩

/-- C4 counterexample: on `CREATE TABLE S.T (C CHAR(10));` the parsed
CHAR(10) column maps with status COMPATIBLE and issue code
SSC-EWI-DB2ICE-0001, yet the generated DDL (EWI markers enabled by
default) contains no EWI marker at all and `ewi_count = 0` — the claim
that every column whose mapping produced an issue is followed by a
marker block fails. -/
theorem c4_counterexample :
    ((db2Parse "CREATE TABLE S.T (C CHAR(10));").map fun t =>
        t.columns.map fun c => (c.data_type, c.length, c.precision, c.scale, c.for_bit_data, c.ccsid)) =
      [[("CHAR", some 10, some 10, none, false, none)]] ∧
    (map_type "CHAR" (some 10) (some 10) none false none).status = ConversionStatus.compatible ∧
    (map_type "CHAR" (some 10) (some 10) none false none).ewi_code = some "SSC-EWI-DB2ICE-0001" ∧
    (db2Convert {} "CREATE TABLE S.T (C CHAR(10));").ewi_count = 0 ∧
    strHas (db2Convert {} "CREATE TABLE S.T (C CHAR(10));").iceberg_ddl "!!!RESOLVE EWI!!!" = false :=
  ⟨rfl, rfl, rfl, rfl, by decide⟩

/-- C4 (amended): with EWI markers enabled, a column's inline EWI marker
block is nonempty exactly when its type mapping has status UNSUPPORTED
or LOSSY (and carries an issue code), or the column has a FIELDPROC or
GENERATED clause; COMPATIBLE mappings with an issue code (such as CHAR)
produce no inline marker.  The emitted marker count is the number of
markers in the block. -/
theorem c4_markers_amended (cfg : ConverterConfig) (hE : cfg.include_ewi = true)
    (col : Column) (tname : String) :
    (convert_column cfg col tname).2 = (col_ewi_markers cfg col).length ∧
    (col_ewi_markers cfg col ≠ [] ↔
      (((map_type col.data_type col.length col.precision col.scale col.for_bit_data col.ccsid).ewi_code.isSome ∧
        ((map_type col.data_type col.length col.precision col.scale col.for_bit_data col.ccsid).status = ConversionStatus.unsupported ∨
         (map_type col.data_type col.length col.precision col.scale col.for_bit_data col.ccsid).status = ConversionStatus.lossy)) ∨
       col.fieldproc.isSome ∨ col.generated.isSome)) := by
  refine ⟨rfl, ?_⟩
  unfold col_ewi_markers
  rw [hE]
  cases hf : col.fieldproc <;> cases hg : col.generated <;>
    by_cases hm :
      (map_type col.data_type col.length col.precision col.scale col.for_bit_data col.ccsid).ewi_code.isSome ∧
        ((map_type col.data_type col.length col.precision col.scale col.for_bit_data col.ccsid).status = ConversionStatus.unsupported ∨
         (map_type col.data_type col.length col.precision col.scale col.for_bit_data col.ccsid).status = ConversionStatus.lossy) <;>
    simp_all

/-- C4 witness: the amended theorem applied with the default
configuration to an XML column (marker present) — the hypothesis
`include_ewi = true` holds for the default configuration. -/
theorem c4_markers_amended_witness :
    (convert_column {} { name := "B", data_type := "XML" } "S.T").2 =
      (col_ewi_markers {} { name := "B", data_type := "XML" }).length ∧
    (col_ewi_markers {} { name := "B", data_type := "XML" } ≠ [] ↔
      (((map_type "XML" none none none false none).ewi_code.isSome ∧
        ((map_type "XML" none none none false none).status = ConversionStatus.unsupported ∨
         (map_type "XML" none none none false none).status = ConversionStatus.lossy)) ∨
       (none : Option String).isSome ∨ (none : Option String).isSome)) :=
  c4_markers_amended {} rfl { name := "B", data_type := "XML" } "S.T"

/-- C5 counterexample: converting the Snowflake column
`C TIMESTAMP_TZ(3)` records the SSC-EWI-SF2ICE-0009 issue with severity
`info`, not `warning` as the claim states (the target type does change
to TIMESTAMP_LTZ(6)). -/
theorem c5_counterexample :
    (sf_convert_column {} { name := "C", data_type := "TIMESTAMP_TZ(3)" } "T").2.2 =
      [{ code := "SSC-EWI-SF2ICE-0009", severity := "info"
         message := "TIMESTAMP_TZ converted to TIMESTAMP_LTZ(6) for Iceberg compatibility"
         table_name := some "T", column_name := some "C" }] ∧
    sf_col_target_type { name := "C", data_type := "TIMESTAMP_TZ(3)" } = "TIMESTAMP_LTZ(6)" ∧
    "info" ≠ "warning" :=
  ⟨rfl, rfl, by decide⟩

/-- C5 (amended): when the Snowflake-to-Iceberg converter converts a
column declared TIMESTAMP_TZ with an explicit precision different from
6 (and no identity/masking/collate extras), it changes the target type
to TIMESTAMP_LTZ(6) and records exactly one SSC-EWI-SF2ICE-0009 issue
with severity INFO (the converter records `info` for every timestamp
precision adjustment, TIMESTAMP_TZ included). -/
theorem c5_timestamp_tz_amended (cfg : ConverterConfig) (hE : cfg.include_ewi = true)
    (col : SnowflakeColumn) (tname : String) (p : Nat)
    (hbase : sf_base_type col.data_type = "TIMESTAMP_TZ")
    (hp : sf_precision_in col.data_type = some p) (h6 : p ≠ 6)
    (hid : col.identity = none) (hmask : col.masking_policy = none)
    (hcol : col.collate = none) :
    sf_col_target_type col = "TIMESTAMP_LTZ(6)" ∧
    (sf_convert_column cfg col tname).2.2 =
      [{ code := "SSC-EWI-SF2ICE-0009", severity := "info"
         message := "TIMESTAMP_TZ converted to TIMESTAMP_LTZ(6) for Iceberg compatibility"
         table_name := some tname, column_name := some col.name }] ∧
    (sf_convert_column cfg col tname).2.1 = 1 := by
  have hTC : sfLookup sfTypeConversions (sf_base_type col.data_type) = none := by
    rw [hbase]; rfl
  have hTS : sfLookup sfTimestampTypes (sf_base_type col.data_type) =
      some ("TIMESTAMP_LTZ(6)", "SSC-EWI-SF2ICE-0009",
        "TIMESTAMP_TZ converted to TIMESTAMP_LTZ(6) for Iceberg compatibility") := by
    rw [hbase]; rfl
  refine ⟨?_, ?_, ?_⟩ <;>
    simp only [sf_col_target_type, sf_convert_column, hTC, hTS, hp] <;>
    simp [h6, hE, hid, hmask, hcol, optStrTruthy]

/-- C5 witness: the amended theorem applied to the concrete column
`C TIMESTAMP_TZ(3)` with the default configuration. -/
theorem c5_timestamp_tz_amended_witness :
    sf_col_target_type { name := "C", data_type := "TIMESTAMP_TZ(3)" } = "TIMESTAMP_LTZ(6)" ∧
    (sf_convert_column {} { name := "C", data_type := "TIMESTAMP_TZ(3)" } "T").2.2 =
      [{ code := "SSC-EWI-SF2ICE-0009", severity := "info"
         message := "TIMESTAMP_TZ converted to TIMESTAMP_LTZ(6) for Iceberg compatibility"
         table_name := some "T", column_name := some "C" }] ∧
    (sf_convert_column {} { name := "C", data_type := "TIMESTAMP_TZ(3)" } "T").2.1 = 1 :=
  c5_timestamp_tz_amended {} rfl { name := "C", data_type := "TIMESTAMP_TZ(3)" } "T" 3
    (by decide) (by decide) (by decide) rfl rfl rfl

/-- C6: whenever parsing yields zero tables, `Assessor.assess` returns a
degenerate report (`tables_total = 0`, exactly one CRITICAL no-tables
issue, no exception), and each converter's `convert` — under its own
parser's zero-table condition — returns `success = false` with a
populated `error_message` and empty generated DDL. -/
theorem c6_zero_tables (ddl : String) :
    (db2Parse ddl = [] →
      (assess ddl).tables_total = 0 ∧
      (assess ddl).critical_issues =
        [{ code := "SSC-EWI-DB2ICE-0000", severity := IssueSeverity.critical
           message := "No valid CREATE TABLE statements found in input" }] ∧
      (assess ddl).warnings = [] ∧ (assess ddl).info_items = [] ∧
      ∀ cfg : ConverterConfig,
        (db2Convert cfg ddl).success = false ∧
        (db2Convert cfg ddl).error_message = some "No valid CREATE TABLE statements found" ∧
        (db2Convert cfg ddl).iceberg_ddl = "") ∧
    (sfParse ddl = [] →
      ∀ cfg : ConverterConfig,
        (sfConvert cfg ddl).success = false ∧
        (sfConvert cfg ddl).error_message = some "No valid CREATE TABLE statements found" ∧
        (sfConvert cfg ddl).iceberg_ddl = "") := by
  constructor
  · intro h
    refine ⟨?_, ?_, ?_, ?_, fun cfg => ⟨?_, ?_, ?_⟩⟩ <;>
      simp [assess, db2Convert, assess_report, h]
  · intro h cfg
    refine ⟨?_, ?_, ?_⟩ <;> simp [sfConvert, h]

/-- C6 witness: the empty input parses to zero tables under both
parsers, and the degenerate report / failed conversions follow. -/
theorem c6_zero_tables_witness :
    db2Parse "" = [] ∧ sfParse "" = [] ∧
    (assess "").tables_total = 0 ∧
    (db2Convert {} "").success = false ∧
    (sfConvert {} "").success = false :=
  ⟨by decide, by decide,
   ((c6_zero_tables "").1 (by decide)).1,
   (((c6_zero_tables "").1 (by decide)).2.2.2.2 {}).1,
   ((c6_zero_tables "").2 (by decide) {}).1⟩

/-- C10: on the zero-tables path `Assessor.assess` returns the
dataclass-default readiness level GREEN together with
`overall_score = 0.0`, even though the report carries a CRITICAL issue
(the level is never recomputed on this early return). -/
theorem c10_degenerate_green (ddl : String) (h : db2Parse ddl = []) :
    (assess ddl).overall_level = ReadinessLevel.green ∧
    (assess ddl).overall_score = 0 ∧
    (assess ddl).critical_issues ≠ [] ∧
    ((assess ddl).critical_issues.map fun i => i.severity) = [IssueSeverity.critical] := by
  refine ⟨?_, ?_, ?_, ?_⟩ <;> simp [assess, assess_report, h]

/-- C10 witness: the theorem applied to the empty input. -/
theorem c10_degenerate_green_witness :
    db2Parse "" = [] ∧
    (assess "").overall_level = ReadinessLevel.green ∧
    (assess "").overall_score = 0 ∧
    (assess "").critical_issues ≠ [] :=
  ⟨by decide,
   (c10_degenerate_green "" (by decide)).1,
   (c10_degenerate_green "" (by decide)).2.1,
   (c10_degenerate_green "" (by decide)).2.2.1⟩

/-- C2: in every report of `Assessor.assess`, every table assessment has
`0 ≤ readiness_score ≤ 100`, and the report's `overall_score` is the
fixed weighted sum (0.40 / 0.20 / 0.15 / 0.25) of the four sub-scores,
whose weights sum to 1 (scores are modelled as exact rationals, so the
floating-rounding allowance is not needed). -/
theorem c2_score_bounds (ddl : String) :
    (∀ ta ∈ (assess ddl).table_assessments,
        0 ≤ ta.readiness_score ∧ ta.readiness_score ≤ 100) ∧
    (assess ddl).overall_score =
      W_DATATYPE * (assess ddl).datatype_score +
      W_CONSTRAINT * (assess ddl).constraint_score +
      W_PARTITION * (assess ddl).partition_score +
      W_SPECIAL * (assess ddl).special_features_score ∧
    W_DATATYPE + W_CONSTRAINT + W_PARTITION + W_SPECIAL = 1 := by
  refine ⟨?_, ?_, by norm_num [W_DATATYPE, W_CONSTRAINT, W_PARTITION, W_SPECIAL]⟩
  · intro ta hta
    by_cases h : db2Parse ddl = []
    · simp [assess, assess_report, h] at hta
    · simp only [assess, assess_report, h, if_neg, if_false] at hta
      simp at hta
      obtain ⟨t, -, rfl⟩ := hta
      have hs : (assess_table t).readiness_score = ((100 - table_penalties t : ℕ) : ℚ) := rfl
      rw [hs]
      constructor
      · exact_mod_cast Nat.zero_le _
      · exact_mod_cast Nat.sub_le 100 _
  · have hO : (assess ddl).overall_score =
        (assess ddl).datatype_score * W_DATATYPE +
        (assess ddl).constraint_score * W_CONSTRAINT +
        (assess ddl).partition_score * W_PARTITION +
        (assess ddl).special_features_score * W_SPECIAL := by
      by_cases h : db2Parse ddl = []
      · simp [assess, assess_report, h]
      · simp [assess, assess_report, h]
    rw [hO]
    ring

/-- C2 witness: the weighted-sum identity of the theorem at a concrete
input. -/
theorem c2_score_bounds_witness :
    (assess "CREATE TABLE S.T (A INTEGER NOT NULL, B XML, PRIMARY KEY (A));").overall_score =
      W_DATATYPE * (assess "CREATE TABLE S.T (A INTEGER NOT NULL, B XML, PRIMARY KEY (A));").datatype_score +
      W_CONSTRAINT * (assess "CREATE TABLE S.T (A INTEGER NOT NULL, B XML, PRIMARY KEY (A));").constraint_score +
      W_PARTITION * (assess "CREATE TABLE S.T (A INTEGER NOT NULL, B XML, PRIMARY KEY (A));").partition_score +
      W_SPECIAL * (assess "CREATE TABLE S.T (A INTEGER NOT NULL, B XML, PRIMARY KEY (A));").special_features_score :=
  (c2_score_bounds "CREATE TABLE S.T (A INTEGER NOT NULL, B XML, PRIMARY KEY (A));").2.1

/-- C7: a parsed DYNAMIC Snowflake table (the kind flags are mutually
exclusive, so the earlier TEMPORARY/TRANSIENT dispatch does not fire) is
skipped: its output is only the explanatory `--` comment lines, it
records exactly one CRITICAL issue with code SSC-EWI-SF2ICE-0022, it
contributes exactly 1 to `ewi_count`, and the batch keeps
`success = true` whenever any tables parsed. -/
theorem c7_dynamic_skip (cfg : ConverterConfig) (hC : cfg.include_comments = true)
    (t : SnowflakeTable) (hd : t.dynamic = true) (htmp : t.temporary = false)
    (htr : t.transient = false) :
    sf_convert_table cfg t =
      (String.intercalate "\n" (sfSkipLines cfg t "DYNAMIC" SF_DYNAMIC_REASON), 1,
       [{ code := "SSC-EWI-SF2ICE-0022", severity := "critical"
          message := "DYNAMIC table cannot be converted to Iceberg: " ++ t.full_name
          suggestion := some SF_DYNAMIC_REASON
          table_name := some t.full_name }]) ∧
    (∀ l ∈ sfSkipLines cfg t "DYNAMIC" SF_DYNAMIC_REASON,
        leadsWith l.data "--".data = true) ∧
    (∀ ddl : String, sfParse ddl ≠ [] → (sfConvert cfg ddl).success = true) := by
  refine ⟨?_, ?_, fun ddl hne => ?_⟩
  · simp [sf_convert_table, htmp, htr, hd, sf_skip_table, sfSkipCode]
  · intro l hl
    unfold sfSkipLines at hl
    rw [hC] at hl
    simp at hl
    rcases hl with h | h | h | h <;> subst h <;> rfl
  · simp [sfConvert, hne]

/-- C7 witness: the theorem applied to a concrete DYNAMIC table and a
concrete two-table batch. -/
theorem c7_dynamic_skip_witness :
    (sf_convert_table {} { name := "D", dynamic := true }).2.1 = 1 ∧
    ((sf_convert_table {} { name := "D", dynamic := true }).2.2.map fun i => (i.code, i.severity)) =
      [("SSC-EWI-SF2ICE-0022", "critical")] ∧
    (sfConvert {} "CREATE DYNAMIC TABLE D (A INT); CREATE TABLE R (B INT);").success = true := by
  have h := c7_dynamic_skip {} rfl { name := "D", dynamic := true } rfl rfl rfl
  exact ⟨by rw [h.1], by rw [h.1]; rfl, h.2.2 _ (by decide)⟩

/-- The splitter scan distributes over concatenation. -/
theorem sp_run_append (st : SpState) (a b : List Char) :
    sp_run st (a ++ b) = sp_run (sp_run st a) b :=
  List.foldl_append _ _ _ _

/-- A statement accepted by the goodness machine passes through the
splitter scan without emitting: the buffer is extended by the whole
statement and the scan returns to (no string, depth 0). -/
theorem gs_run_no_emit :
    ∀ (cs : List Char) (inStr : Bool) (depth : Int) (prevB : Bool)
      (acc : List (List Char)) (cur : List Char),
      gs_go cs inStr depth prevB = true →
      ∃ pb, sp_run ⟨acc, cur, inStr, depth, prevB⟩ cs = ⟨acc, cur ++ cs, false, 0, pb⟩ := by
  intro cs
  induction cs with
  | nil =>
    intro inStr depth prevB acc cur h
    simp only [gs_go, Bool.and_eq_true, Bool.not_eq_true', beq_iff_eq] at h
    exact ⟨prevB, by simp [sp_run, h.1, h.2]⟩
  | cons c rest ih =>
    intro inStr depth prevB acc cur h
    simp only [gs_go] at h
    by_cases hb : sp_isTerm c (sp_instr c inStr prevB)
        (sp_depth c (sp_instr c inStr prevB) depth) = true
    · rw [if_pos hb] at h
      exact absurd h (by simp)
    · rw [if_neg hb] at h
      obtain ⟨pb, hpb⟩ := ih (sp_instr c inStr prevB)
        (sp_depth c (sp_instr c inStr prevB) depth) (decide (c = bslashCh))
        acc (cur ++ [c]) h
      refine ⟨pb, ?_⟩
      have hstep : sp_step ⟨acc, cur, inStr, depth, prevB⟩ c =
          ⟨acc, cur ++ [c], sp_instr c inStr prevB,
           sp_depth c (sp_instr c inStr prevB) depth, decide (c = bslashCh)⟩ := by
        simp only [sp_step]
        rw [if_neg hb]
      calc sp_run ⟨acc, cur, inStr, depth, prevB⟩ (c :: rest)
          = sp_run (sp_step ⟨acc, cur, inStr, depth, prevB⟩ c) rest := rfl
        _ = ⟨acc, (cur ++ [c]) ++ rest, false, 0, pb⟩ := by rw [hstep, hpb]
        _ = ⟨acc, cur ++ c :: rest, false, 0, pb⟩ := by simp

/-- Processing a terminating `;` from the rest state emits the stripped
buffer (when nonempty) and resets the scan. -/
theorem sp_step_semicolon (acc : List (List Char)) (cur : List Char) (pb : Bool) :
    sp_step ⟨acc, cur, false, 0, pb⟩ ';' =
      ⟨acc ++ (if pyStripL cur = [] then [] else [pyStripL cur]), [], false, 0, false⟩ := rfl

/-- The splitter scan over `s₁; s₂; ... sN;` accumulates exactly the
stripped statements, in order. -/
theorem sp_run_batch :
    ∀ (ss : List (List Char)) (acc : List (List Char)),
      (∀ s ∈ ss, gs_go s false 0 false = true ∧ pyStripL s ≠ []) →
      sp_run ⟨acc, [], false, 0, false⟩ ((ss.map fun s => s ++ [';']).flatten) =
        ⟨acc ++ ss.map pyStripL, [], false, 0, false⟩ := by
  intro ss
  induction ss with
  | nil => intro acc _; simp [sp_run]
  | cons s rest ih =>
    intro acc h
    have hs := h s (by simp)
    have hrest : ∀ x ∈ rest, gs_go x false 0 false = true ∧ pyStripL x ≠ [] :=
      fun x hx => h x (by simp [hx])
    obtain ⟨pb, hpb⟩ := gs_run_no_emit s false 0 false acc [] hs.1
    have hasc : ((s ++ [';']) :: rest.map fun t => t ++ [';']).flatten =
        s ++ (';' :: (rest.map fun t => t ++ [';']).flatten) := by
      simp
    calc sp_run ⟨acc, [], false, 0, false⟩ (((s :: rest).map fun t => t ++ [';']).flatten)
        = sp_run ⟨acc, [], false, 0, false⟩
            (s ++ (';' :: (rest.map fun t => t ++ [';']).flatten)) := by
          rw [List.map_cons, hasc]
      _ = sp_run (sp_run ⟨acc, [], false, 0, false⟩ s)
            (';' :: (rest.map fun t => t ++ [';']).flatten) := by
          rw [sp_run_append]
      _ = sp_run (sp_step ⟨acc, s, false, 0, pb⟩ ';')
            ((rest.map fun t => t ++ [';']).flatten) := by
          rw [hpb]
          simp only [List.nil_append]
          rfl
      _ = sp_run ⟨acc ++ [pyStripL s], [], false, 0, false⟩
            ((rest.map fun t => t ++ [';']).flatten) := by
          rw [sp_step_semicolon]
          rw [if_neg hs.2]
      _ = ⟨(acc ++ [pyStripL s]) ++ rest.map pyStripL, [], false, 0, false⟩ :=
          ih (acc ++ [pyStripL s]) hrest
      _ = ⟨acc ++ (s :: rest).map pyStripL, [], false, 0, false⟩ := by
          simp

/-- C8: splitting `N` semicolon-terminated statements — each one a
single statement in the splitter's sense (no top-level terminator
characters, balanced parentheses, closed string literals) with nonempty
stripped text — yields exactly those `N` statements, each stripped of
its terminator. -/
theorem c8_statement_count (ss : List String)
    (h : ∀ s ∈ ss, goodStmt s = true ∧ pyStrip s ≠ "") :
    split_statements (mkBatch ss) = ss.map pyStrip ∧
    (split_statements (mkBatch ss)).length = ss.length := by
  have h' : ∀ l ∈ ss.map String.data, gs_go l false 0 false = true ∧ pyStripL l ≠ [] := by
    intro l hl
    simp only [List.mem_map] at hl
    obtain ⟨s, hs, rfl⟩ := hl
    obtain ⟨h1, h2⟩ := h s hs
    refine ⟨h1, fun he => h2 ?_⟩
    show (⟨pyStripL s.data⟩ : String) = ""
    rw [he]
  have hb := sp_run_batch (ss.map String.data) [] h'
  have hmaps : ((ss.map String.data).map fun l => l ++ [';']) =
      ss.map fun s => s.data ++ [';'] := by
    rw [List.map_map]
    rfl
  rw [hmaps] at hb
  have hsplit : split_statements (mkBatch ss) =
      ((ss.map String.data).map pyStripL).map fun l => (⟨l⟩ : String) := by
    unfold split_statements mkBatch
    rw [show (String.mk ((ss.map fun s => s.data ++ [';']).flatten)).data =
          (ss.map fun s => s.data ++ [';']).flatten from rfl]
    rw [hb]
    simp [pyStripL]
  constructor
  · rw [hsplit, List.map_map, List.map_map]
    rfl
  · rw [hsplit]
    simp

/-- C8 witness: two concrete CREATE TABLE statements split into exactly
those two statements. -/
theorem c8_statement_count_witness :
    split_statements (mkBatch ["CREATE TABLE A (X INT)", " CREATE TABLE B (Y INT)"]) =
      ["CREATE TABLE A (X INT)", "CREATE TABLE B (Y INT)"] ∧
    (split_statements (mkBatch ["CREATE TABLE A (X INT)", " CREATE TABLE B (Y INT)"])).length = 2 := by
  have h := c8_statement_count ["CREATE TABLE A (X INT)", " CREATE TABLE B (Y INT)"]
    (by decide)
  exact ⟨by rw [h.1]; rfl, h.2⟩

/-- Table options never touch the column list. -/
theorem parse_table_options_columns (o : String) (t : TableDefinition) :
    (parse_table_options o t).columns = t.columns := rfl

/-- A membership in a not-`p` element survives `dropWhile p`. -/
theorem mem_dropWhile_of_not (p : Char → Bool) (x : Char) (hx : p x = false) :
    ∀ l : List Char, x ∈ l → x ∈ l.dropWhile p := by
  intro l
  induction l with
  | nil => intro h; exact absurd h (by simp)
  | cons y t ih =>
    intro h
    by_cases hy : p y = true
    · rw [List.dropWhile_cons_of_pos hy]
      rcases List.mem_cons.mp h with rfl | hmem
      · exact absurd hy (by simp [hx])
      · exact ih hmem
    · rw [List.dropWhile_cons_of_neg hy]
      exact h

/-- Stripping a non-`p` character from both ends keeps some `p`
element. -/
theorem stripCharL_any (c : Char) (p : Char → Bool) (hc : p c = false)
    (l : List Char) (h : l.any p = true) : (stripCharL c l).any p = true := by
  rw [List.any_eq_true] at h ⊢
  obtain ⟨x, hmem, hpx⟩ := h
  have hxc : (decide (x = c)) = false := by
    rcases eq_or_ne x c with rfl | hne
    · exact absurd hpx (by simp [hc])
    · simp [hne]
  refine ⟨x, ?_, hpx⟩
  unfold stripCharL
  rw [List.mem_reverse]
  refine mem_dropWhile_of_not _ x hxc _ ?_
  rw [List.mem_reverse]
  exact mem_dropWhile_of_not _ x hxc _ hmem

/-- A `_parse_column` success determines the name from the leading
identifier token of the stored raw definition, and the name is nonempty
whenever that token contains a word character (quote-stripping cannot
remove word characters). -/
theorem parse_column_facts (s : String) (col : Column)
    (h : parse_column s = some col) :
    col.name = clean_identifier ⟨nameTokenOf col.raw_definition⟩ ∧
    ((nameTokenOf col.raw_definition).any isWordCh = true → col.name ≠ "") := by
  unfold parse_column at h
  by_cases h0 : pyStripL s.data = []
  · rw [if_pos h0] at h
    exact absurd h (by simp)
  · rw [if_neg h0] at h
    rcases htk : takeClass1 isIdentCh (pyStripL s.data) with _ | ⟨tok, rest⟩
    · simp only [htk] at h
      exact absurd h (by simp)
    · simp only [htk] at h
      rcases hdt : parse_data_type (pyStripL rest) with _ | ⟨tname, n1, n2, r1⟩
      · simp only [hdt] at h
        exact absurd h (by simp)
      · simp only [hdt] at h
        have hcol := Option.some.inj h
        have htok : tok = (pyStripL s.data).takeWhile isIdentCh := by
          unfold takeClass1 at htk
          by_cases he : ((pyStripL s.data).takeWhile isIdentCh).isEmpty = true
          · rw [if_pos he] at htk
            exact absurd htk (by simp)
          · rw [if_neg he] at htk
            exact (Prod.mk.injEq _ _ _ _ ▸ Option.some.inj htk).1.symm
        have hraw : col.raw_definition = (⟨pyStripL s.data⟩ : String) := by
          rw [← hcol]
        have hname : col.name = clean_identifier ⟨tok⟩ := by
          rw [← hcol]
        have htok2 : nameTokenOf col.raw_definition = tok := by
          rw [hraw]
          unfold nameTokenOf
          exact htok.symm
        constructor
        · rw [htok2, ← hname]
        · intro hw
          rw [htok2] at hw
          rw [hname]
          intro hemp
          have hany : (stripCharL btickCh (stripCharL squoteCh
              (stripCharL '"' tok))).any isWordCh = true := by
            refine stripCharL_any _ _ (by decide) _ ?_
            refine stripCharL_any _ _ (by decide) _ ?_
            exact stripCharL_any _ _ (by decide) _ hw
          have h2 : stripCharL btickCh (stripCharL squoteCh (stripCharL '"' tok)) =
              ("" : String).data := congrArg String.data hemp
          rw [h2] at hany
          exact absurd hany (by decide)

/-- A column in the fold of `_parse_columns_and_constraints` came from
the base table or from a `_parse_column` success. -/
theorem pcc_foldl_mem (parts : List (List Char)) :
    ∀ (t0 : TableDefinition) (col : Column),
      col ∈ (parts.foldl pcc_step t0).columns →
      col ∈ t0.columns ∨ ∃ s, parse_column s = some col := by
  induction parts with
  | nil => intro t0 col h; exact Or.inl h
  | cons p ps ih =>
    intro t0 col h
    rw [List.foldl_cons] at h
    rcases ih (pcc_step t0 p) col h with hm | he
    · unfold pcc_step at hm
      by_cases h0 : pyStripL p = []
      · rw [if_pos h0] at hm
        exact Or.inl hm
      · rw [if_neg h0] at hm
        by_cases hcn : is_constraint ⟨pyStripL p⟩ = true
        · rw [if_pos hcn] at hm
          rcases hc : parse_constraint ⟨pyStripL p⟩ with _ | c <;> rw [hc] at hm
          · exact Or.inl hm
          · exact Or.inl hm
        · rw [if_neg hcn] at hm
          rcases hc : parse_column ⟨pyStripL p⟩ with _ | c <;> rw [hc] at hm
          · exact Or.inl hm
          · rcases List.mem_append.mp hm with h1 | h2
            · exact Or.inl h1
            · exact Or.inr ⟨⟨pyStripL p⟩, by rw [hc, List.mem_singleton.mp h2]⟩
    · exact Or.inr he

/-- Every column of a table produced by `DB2Parser.parse` came from a
`_parse_column` success. -/
theorem db2Parse_col_from_parse_column (ddl : String) (t : TableDefinition)
    (col : Column) (ht : t ∈ db2Parse ddl) (hc : col ∈ t.columns) :
    ∃ s, parse_column s = some col := by
  unfold db2Parse at ht
  rw [List.mem_filterMap] at ht
  obtain ⟨stmt0, -, hf⟩ := ht
  have hbody : ∀ (stmt : String) (hh : Db2Header) (base : TableDefinition),
      base.columns = [] → parse_table_body stmt hh base = some t →
      ∃ s, parse_column s = some col := by
    intro stmt hh base hb hp
    unfold parse_table_body at hp
    rcases hfm : find_matching_paren hh.restAtParen with _ | ⟨cs, os⟩
    · simp only [hfm] at hp
      exact absurd hp (by simp)
    · simp only [hfm] at hp
      have ht2 := Option.some.inj hp
      have hcols :
          col ∈ (parse_cols_constraints cs
            { base with
              raw_ddl := stmt
              schema := hh.schemaTok.map (fun tk => clean_identifier ⟨tk⟩)
              name := clean_identifier ⟨hh.nameTok⟩ }).columns := by
        rw [← parse_table_options_columns ⟨os⟩, ht2]
        exact hc
      unfold parse_cols_constraints at hcols
      rcases pcc_foldl_mem _ _ _ hcols with hbase | he
      · have hbc :
            ({ base with
               raw_ddl := stmt
               schema := hh.schemaTok.map (fun tk => clean_identifier ⟨tk⟩)
               name := clean_identifier ⟨hh.nameTok⟩ } : TableDefinition).columns =
              base.columns := rfl
        rw [hbc, hb] at hbase
        exact absurd hbase (by simp)
      · exact he
  by_cases h0 : (pyStrip stmt0).data = []
  · rw [if_pos h0] at hf
    exact absurd hf (by simp)
  · rw [if_neg h0] at hf
    by_cases hg1 : createGate (strip_leading_comments (pyStrip stmt0)) = true
    · rw [if_pos hg1] at hf
      unfold parse_create_table at hf
      rcases hh : searchSuf matchHeaderAt (strip_leading_comments (pyStrip stmt0)).data
        with _ | hd
      · simp only [hh] at hf
        exact absurd hf (by simp)
      · simp only [hh] at hf
        exact hbody _ hd _ rfl hf
    · rw [if_neg hg1] at hf
      by_cases hg2 : declareGate (strip_leading_comments (pyStrip stmt0)) = true
      · rw [if_pos hg2] at hf
        unfold parse_declare_temp_table at hf
        rcases hh : searchSuf matchDeclareAt (strip_leading_comments (pyStrip stmt0)).data
          with _ | hd
        · simp only [hh] at hf
          exact absurd hf (by simp)
        · simp only [hh] at hf
          exact hbody _ hd _ rfl hf
      · rw [if_neg hg2] at hf
        exact absurd hf (by simp)

/-- C9 counterexample: the parser accepts the quoted-empty identifier
`""` as a column name — `CREATE TABLE T ("" INTEGER);` parses to one
table whose single column has the empty name. -/
theorem c9_counterexample :
    ((db2Parse "CREATE TABLE T (\"\" INTEGER);").map fun t =>
        t.columns.map fun c => c.name) = [[""]] ∧
    (db2Parse "CREATE TABLE T (\"\" INTEGER);").length = 1 :=
  ⟨rfl, rfl⟩

/-- C9 (amended): every column of every table returned by
`DB2Parser.parse` takes its name from the quote-stripped leading
identifier token, and the name is nonempty whenever that token contains
at least one word character; only a degenerate identifier made solely of
quote characters (such as `""`) yields an empty name. -/
theorem c9_column_names_amended (ddl : String) (t : TableDefinition) (col : Column)
    (ht : t ∈ db2Parse ddl) (hc : col ∈ t.columns)
    (hw : (nameTokenOf col.raw_definition).any isWordCh = true) :
    col.name ≠ "" := by
  obtain ⟨s, hs⟩ := db2Parse_col_from_parse_column ddl t col ht hc
  exact (parse_column_facts s col hs).2 hw

/-- C9 witness: the amended theorem applied to the parsed column `A` of
`CREATE TABLE T (A INTEGER);`. -/
theorem c9_column_names_amended_witness :
    ({ name := "A", data_type := "INTEGER", raw_definition := "A INTEGER" } : Column).name ≠ "" :=
  c9_column_names_amended "CREATE TABLE T (A INTEGER);"
    { name := "T", raw_ddl := "CREATE TABLE T (A INTEGER)"
      columns := [{ name := "A", data_type := "INTEGER", raw_definition := "A INTEGER" }] }
    { name := "A", data_type := "INTEGER", raw_definition := "A INTEGER" }
    (by decide) (by decide) (by decide)

end DB2Ice
